import Mathlib

/-!
# Sobel: frame orchestration of `VulkanApp` / `SobelApp`

A shallow embedding of `src/framework/vulkanApp.cpp` and `src/sobel/sobel.cpp`.

* Vulkan enumerants are natural numbers carrying the values of `vulkan_core.h`.
* Bit masks (`VkFlags`, 32 bit) are natural numbers tested with `&&&`.
* Loops that `break` / `return` on the first hit are structural recursions over the
  candidate array, in array order.
* Calls into the Vulkan device are recorded as a list of operations in program order.
-/

namespace Sobel

/-! ## Vulkan enumerants -/

abbrev VkPresentModeKHR := Nat
abbrev VkCompositeAlphaFlagBitsKHR := Nat
abbrev VkFormat := Nat
abbrev VkFlags := Nat

def VK_PRESENT_MODE_IMMEDIATE_KHR : VkPresentModeKHR := 0
def VK_PRESENT_MODE_MAILBOX_KHR : VkPresentModeKHR := 1
def VK_PRESENT_MODE_FIFO_KHR : VkPresentModeKHR := 2
def VK_PRESENT_MODE_FIFO_RELAXED_KHR : VkPresentModeKHR := 3

def VK_COMPOSITE_ALPHA_OPAQUE_BIT_KHR : VkCompositeAlphaFlagBitsKHR := 1
def VK_COMPOSITE_ALPHA_PRE_MULTIPLIED_BIT_KHR : VkCompositeAlphaFlagBitsKHR := 2
def VK_COMPOSITE_ALPHA_POST_MULTIPLIED_BIT_KHR : VkCompositeAlphaFlagBitsKHR := 4
def VK_COMPOSITE_ALPHA_INHERIT_BIT_KHR : VkCompositeAlphaFlagBitsKHR := 8

def VK_SURFACE_TRANSFORM_IDENTITY_BIT_KHR : VkFlags := 1

def VK_FORMAT_UNDEFINED : VkFormat := 0
def VK_FORMAT_D16_UNORM : VkFormat := 124
def VK_FORMAT_D32_SFLOAT : VkFormat := 126
def VK_FORMAT_D16_UNORM_S8_UINT : VkFormat := 128
def VK_FORMAT_D24_UNORM_S8_UINT : VkFormat := 129
def VK_FORMAT_D32_SFLOAT_S8_UINT : VkFormat := 130

def VK_FORMAT_FEATURE_DEPTH_STENCIL_ATTACHMENT_BIT : VkFlags := 0x200

/-- The C condition `if (mask & bit)`: true when the bitwise and is nonzero. -/
def hasFlag (mask bit : VkFlags) : Bool := (mask &&& bit) != 0

/-! ## Present mode (`VulkanApp::createSwapchain`, lines 171-199) -/

/-- The array `modes` searched when vSync is off. -/
def modes : List VkPresentModeKHR :=
  [VK_PRESENT_MODE_IMMEDIATE_KHR, VK_PRESENT_MODE_MAILBOX_KHR, VK_PRESENT_MODE_FIFO_RELAXED_KHR]

/-- The loop `for (auto mode : modes)`: the first `mode` that `std::find` locates in
`presentModes` ends the loop with `found = true`; `none` stands for `found = false`. -/
def searchPresentMode (presentModes : List VkPresentModeKHR) :
    List VkPresentModeKHR → Option VkPresentModeKHR
  | [] => none
  | mode :: rest =>
    if presentModes.contains mode then some mode else searchPresentMode presentModes rest

/-- The value of `presentMode` handed to the swapchain constructor. -/
def choosePresentMode (vSync : Bool) (presentModes : List VkPresentModeKHR) : VkPresentModeKHR :=
  if vSync then VK_PRESENT_MODE_FIFO_KHR
  else
    match searchPresentMode presentModes modes with
    | some mode => mode
    | none => VK_PRESENT_MODE_FIFO_KHR

/-! ## Composite alpha (`VulkanApp::createSwapchain`, lines 153-169) -/

/-- The array `compositeAlphaFlags`. -/
def compositeAlphaFlags : List VkCompositeAlphaFlagBitsKHR :=
  [VK_COMPOSITE_ALPHA_OPAQUE_BIT_KHR, VK_COMPOSITE_ALPHA_PRE_MULTIPLIED_BIT_KHR,
   VK_COMPOSITE_ALPHA_POST_MULTIPLIED_BIT_KHR, VK_COMPOSITE_ALPHA_INHERIT_BIT_KHR]

/-- The loop `for (auto alphaFlag : compositeAlphaFlags)` run on the current value of
`compositeAlpha`: the first flag with `supportedCompositeAlpha & alphaFlag` overwrites it
and ends the loop. -/
def scanCompositeAlpha (supportedCompositeAlpha : VkFlags)
    (compositeAlpha : VkCompositeAlphaFlagBitsKHR) :
    List VkCompositeAlphaFlagBitsKHR → VkCompositeAlphaFlagBitsKHR
  | [] => compositeAlpha
  | alphaFlag :: rest =>
    if hasFlag supportedCompositeAlpha alphaFlag then alphaFlag
    else scanCompositeAlpha supportedCompositeAlpha compositeAlpha rest

/-- The value of `compositeAlpha` handed to the swapchain constructor: initialised to
opaque, then scanned. -/
def chooseCompositeAlpha (supportedCompositeAlpha : VkFlags) : VkCompositeAlphaFlagBitsKHR :=
  scanCompositeAlpha supportedCompositeAlpha VK_COMPOSITE_ALPHA_OPAQUE_BIT_KHR compositeAlphaFlags

/-! ## Depth format (`VulkanApp::getSupportedDepthFormat`, lines 293-313) -/

structure VkFormatProperties where
  linearTilingFeatures : VkFlags
  optimalTilingFeatures : VkFlags
  bufferFeatures : VkFlags
deriving DecidableEq, Repr

/-- The vector `depthFormats`. -/
def depthFormats : List VkFormat :=
  [VK_FORMAT_D32_SFLOAT_S8_UINT, VK_FORMAT_D32_SFLOAT, VK_FORMAT_D24_UNORM_S8_UINT,
   VK_FORMAT_D16_UNORM_S8_UINT, VK_FORMAT_D16_UNORM]

/-- Modelled from the spec: `magma::Format::depthStencil()` is declared outside `src/`.
It tells whether a format has a stencil aspect next to its depth aspect, which among the
Vulkan formats are the three combined `D*_S8_UINT` formats. -/
def depthStencil (format : VkFormat) : Bool :=
  format == VK_FORMAT_D16_UNORM_S8_UINT || format == VK_FORMAT_D24_UNORM_S8_UINT
    || format == VK_FORMAT_D32_SFLOAT_S8_UINT

/-- The loop `for (VkFormat format : depthFormats)` with its `continue` and two `return`s;
falling off the end returns `VK_FORMAT_UNDEFINED`. `stencilAspect` is
`magma::Format(format).depthStencil()` and `getFormatProperties` is the device table. -/
def scanDepthFormats (stencilAspect : VkFormat → Bool)
    (getFormatProperties : VkFormat → VkFormatProperties)
    (hasStencil optimalTiling : Bool) : List VkFormat → VkFormat
  | [] => VK_FORMAT_UNDEFINED
  | format :: rest =>
    if hasStencil && !stencilAspect format then
      scanDepthFormats stencilAspect getFormatProperties hasStencil optimalTiling rest
    else
      let properties := getFormatProperties format
      if optimalTiling &&
          hasFlag properties.optimalTilingFeatures VK_FORMAT_FEATURE_DEPTH_STENCIL_ATTACHMENT_BIT then
        format
      else if !optimalTiling &&
          hasFlag properties.linearTilingFeatures VK_FORMAT_FEATURE_DEPTH_STENCIL_ATTACHMENT_BIT then
        format
      else
        scanDepthFormats stencilAspect getFormatProperties hasStencil optimalTiling rest

/-- The method `VulkanApp::getSupportedDepthFormat`. -/
def getSupportedDepthFormat (stencilAspect : VkFormat → Bool)
    (getFormatProperties : VkFormat → VkFormatProperties)
    (hasStencil optimalTiling : Bool) : VkFormat :=
  scanDepthFormats stencilAspect getFormatProperties hasStencil optimalTiling depthFormats

/-- The features of `format` under the requested tiling contain the
depth-stencil-attachment bit. -/
def supportsDepthAttachment (getFormatProperties : VkFormat → VkFormatProperties)
    (optimalTiling : Bool) (format : VkFormat) : Bool :=
  hasFlag
    (if optimalTiling then (getFormatProperties format).optimalTilingFeatures
     else (getFormatProperties format).linearTilingFeatures)
    VK_FORMAT_FEATURE_DEPTH_STENCIL_ATTACHMENT_BIT

/-! ## Machine integers -/

/-- The conversion `static_cast<uint32_t>(x)`. -/
def toUInt32 (x : Nat) : Nat := x % 2 ^ 32

/-- The conversion of a 32-bit pattern to `int` / `int32_t` (two's complement). -/
def toInt32 (x : Nat) : Int :=
  if x % 2 ^ 32 < 2 ^ 31 then ((x % 2 ^ 32 : Nat) : Int) else ((x % 2 ^ 32 : Nat) : Int) - 2 ^ 32

/-- Unary minus on a `uint32_t`. -/
def negUInt32 (x : Nat) : Nat := (2 ^ 32 - x % 2 ^ 32) % 2 ^ 32

/-- The call `std::min(2U, x)` on `uint32_t`. -/
def minUInt32 (a b : Nat) : Nat := if b < a then b else a

/-! ## Answers of the device -/

structure VkExtent2D where
  width : Nat
  height : Nat
deriving DecidableEq, Repr

structure VkSurfaceCapabilitiesKHR where
  maxImageCount : Nat
  currentExtent : VkExtent2D
  supportedTransforms : VkFlags
  currentTransform : VkFlags
  supportedCompositeAlpha : VkFlags
deriving DecidableEq, Repr

structure VkSurfaceFormatKHR where
  format : VkFormat
  colorSpace : Nat
deriving DecidableEq, Repr

/-- How the `try` block of `createCommandBuffers` ends on this device: every statement
succeeds, or one of its three statements throws. -/
inductive TransferQueue
  | present (queueFamilyIndex : Nat)
  | getQueueThrows
  | commandPoolThrows (queueFamilyIndex : Nat)
  | allocateThrows (queueFamilyIndex : Nat)
deriving DecidableEq, Repr

/-- Everything the application asks the instance, the physical device and the surface. -/
structure PhysicalDevice where
  deviceName : String
  surfaceSupport : Bool
  surfaceCaps : VkSurfaceCapabilitiesKHR
  surfaceFormats : List VkSurfaceFormatKHR
  presentModes : List VkPresentModeKHR
  formatProperties : VkFormat → VkFormatProperties
  KHR_maintenance1 : Bool
  AMD_negative_viewport_height : Bool
  graphicsQueueFamilyIndex : Nat
  transferQueueFamilyIndex : Nat
  transferQueue : TransferQueue
  swapchainImages : Nat

/-! ## Objects created by the application -/

structure Swapchain where
  minImageCount : Nat
  surfaceFormat : VkSurfaceFormatKHR
  extent : VkExtent2D
  preTransform : VkFlags
  compositeAlpha : VkCompositeAlphaFlagBitsKHR
  presentMode : VkPresentModeKHR
  images : Nat
deriving DecidableEq, Repr

inductive ImageView
  | swapchainImage (index : Nat)
  | depthStencil
  | offscreenColor
deriving DecidableEq, Repr

structure RenderPass where
  attachments : List VkFormat
deriving DecidableEq, Repr

structure Framebuffer where
  renderPass : Option RenderPass
  attachments : List ImageView
deriving DecidableEq, Repr

/-- A command pool and the number of command buffers it has handed out. -/
structure CommandPool where
  slot : Nat
  queueFamilyIndex : Nat
  allocated : Nat
deriving DecidableEq, Repr

/-- A command buffer is known by the pool it came from and its place in that pool's
allocation order. -/
structure CommandBuffer where
  pool : Nat
  queueFamilyIndex : Nat
  serial : Nat
  primary : Bool
deriving DecidableEq, Repr

/-- A semaphore is known by its place in the creation order of semaphores. -/
structure Semaphore where
  id : Nat
deriving DecidableEq, Repr

/-- A fence is known by its place in the creation order of fences; `signaled` is the
flag given to its constructor. -/
structure Fence where
  id : Nat
  signaled : Bool
deriving DecidableEq, Repr

def CommandPool.allocateCommandBuffer (pool : CommandPool) (primary : Bool) :
    CommandBuffer × CommandPool :=
  (⟨pool.slot, pool.queueFamilyIndex, pool.allocated, primary⟩,
   { pool with allocated := pool.allocated + 1 })

def CommandPool.allocateCommandBuffers (pool : CommandPool) (count : Nat) (primary : Bool) :
    List CommandBuffer × CommandPool :=
  ((List.range count).map
      (fun k => ⟨pool.slot, pool.queueFamilyIndex, pool.allocated + k, primary⟩),
   { pool with allocated := pool.allocated + count })

def VK_PIPELINE_STAGE_COLOR_ATTACHMENT_OUTPUT_BIT : VkFlags := 0x400

/-- A call into the swapchain, a fence, the uniform buffer, the queue or the device,
with its arguments. A null semaphore or fence argument is `none`. -/
inductive Op
  | acquireNextImage (semaphore : Option Semaphore) (fence : Option Fence) (imageIndex : Nat)
  | fenceWait (fence : Fence)
  | fenceReset (fence : Fence)
  | mapUniformBuffer
  | submit (cmdBuffer : CommandBuffer) (waitStageMask : VkFlags)
      (waitSemaphore signalSemaphore : Option Semaphore) (fence : Option Fence)
  | present (imageIndex : Nat) (waitSemaphore : Option Semaphore)
  | waitIdle
deriving DecidableEq, Repr

/-- How a call of the application ends when it does not return normally: a thrown
`std::runtime_error`, a failed `assert`, or undefined behaviour (a subscript out of range,
a null pointer dereferenced). -/
inductive Failure
  | runtimeError (what : String)
  | assertion (expression : String)
  | undefinedBehaviour
deriving DecidableEq, Repr

/-! ## `VulkanApp` (`src/framework/vulkanApp.cpp`)

Calls into the instance, the device and the library are taken to succeed, except where the
source itself provides for their failure: the surface-support test, the two asserts, the
subscripts, and the `try` block around the transfer queue. -/

/-- The members of `VulkanApp` that the modelled methods read or write, the standard
output, and the device calls issued so far. -/
structure VulkanApp where
  width : Nat
  height : Nat
  depthBuffer : Bool
  KHR_maintenance1 : Bool
  AMD_negative_viewport_height : Bool
  queueFamilies : List Nat
  enabledExtensions : List String
  swapchain : Option Swapchain
  renderPass : Option RenderPass
  depthStencilView : Option ImageView
  framebuffers : List Framebuffer
  graphicsPool : Option CommandPool
  transferPool : Option CommandPool
  commandBuffers : List CommandBuffer
  cmdImageCopy : Option CommandBuffer
  cmdBufferCopy : Option CommandBuffer
  presentFinished : Option Semaphore
  renderFinished : Option Semaphore
  waitFences : List Fence
  pipelineCache : Bool
  semaphoresCreated : Nat
  fencesCreated : Nat
  cout : List String
  calls : List Op
deriving DecidableEq, Repr

/-- The constructor `VulkanApp::VulkanApp`: every container empty, every pointer null.
The members `graphicsPool` and `transferPool` are `commandPools[0]` and `commandPools[1]`. -/
def VulkanApp.new (width height : Nat) (depthBuffer : Bool) : VulkanApp :=
  { width := width, height := height, depthBuffer := depthBuffer,
    KHR_maintenance1 := false, AMD_negative_viewport_height := false,
    queueFamilies := [], enabledExtensions := [],
    swapchain := none, renderPass := none, depthStencilView := none, framebuffers := [],
    graphicsPool := none, transferPool := none, commandBuffers := [],
    cmdImageCopy := none, cmdBufferCopy := none,
    presentFinished := none, renderFinished := none, waitFences := [],
    pipelineCache := false, semaphoresCreated := 0, fencesCreated := 0,
    cout := [], calls := [] }

/-- The method `VulkanApp::createInstance`: prints the device name and reads the
extension set. -/
def createInstance (physicalDevice : PhysicalDevice) (app : VulkanApp) : VulkanApp :=
  { app with
    cout := app.cout ++ ["Running on " ++ physicalDevice.deviceName ++ "\n"],
    KHR_maintenance1 := physicalDevice.KHR_maintenance1,
    AMD_negative_viewport_height := physicalDevice.AMD_negative_viewport_height }

/-- The method `VulkanApp::createLogicalDevice`: the queue descriptors and the enabled
extensions. -/
def createLogicalDevice (physicalDevice : PhysicalDevice) (app : VulkanApp) : VulkanApp :=
  { app with
    queueFamilies :=
      if physicalDevice.transferQueueFamilyIndex != physicalDevice.graphicsQueueFamilyIndex then
        [physicalDevice.graphicsQueueFamilyIndex, physicalDevice.transferQueueFamilyIndex]
      else [physicalDevice.graphicsQueueFamilyIndex],
    enabledExtensions :=
      if app.AMD_negative_viewport_height then
        ["VK_KHR_swapchain", "VK_AMD_negative_viewport_height"]
      else if app.KHR_maintenance1 then ["VK_KHR_swapchain", "VK_KHR_maintenance1"]
      else ["VK_KHR_swapchain"] }

/-- The method `VulkanApp::createSwapchain`. `NDEBUG` tells whether the translation unit
is compiled with `NDEBUG` defined, which turns each `assert` into an empty statement. -/
def createSwapchain (NDEBUG : Bool) (physicalDevice : PhysicalDevice) (vSync : Bool)
    (app : VulkanApp) : Except Failure VulkanApp :=
  if !physicalDevice.surfaceSupport then
    .error (.runtimeError "surface not supported")
  else
    let surfaceCaps := physicalDevice.surfaceCaps
    if !NDEBUG && surfaceCaps.currentExtent.width != app.width then
      .error (.assertion "surfaceCaps.currentExtent.width == width")
    else if !NDEBUG && surfaceCaps.currentExtent.height != app.height then
      .error (.assertion "surfaceCaps.currentExtent.height == height")
    else
      let preTransform :=
        if hasFlag surfaceCaps.supportedTransforms VK_SURFACE_TRANSFORM_IDENTITY_BIT_KHR then
          VK_SURFACE_TRANSFORM_IDENTITY_BIT_KHR
        else surfaceCaps.currentTransform
      let compositeAlpha := chooseCompositeAlpha surfaceCaps.supportedCompositeAlpha
      let presentMode := choosePresentMode vSync physicalDevice.presentModes
      match physicalDevice.surfaceFormats with
      | [] => .error .undefinedBehaviour
      | surfaceFormat :: _ =>
        .ok { app with
              swapchain := some
                { minImageCount := minUInt32 2 surfaceCaps.maxImageCount,
                  surfaceFormat := surfaceFormat,
                  extent := surfaceCaps.currentExtent,
                  preTransform := preTransform,
                  compositeAlpha := compositeAlpha,
                  presentMode := presentMode,
                  images := physicalDevice.swapchainImages } }

/-- The method `VulkanApp::createRenderPass`. -/
def createRenderPass (physicalDevice : PhysicalDevice) (app : VulkanApp) :
    Except Failure VulkanApp :=
  match physicalDevice.surfaceFormats with
  | [] => .error .undefinedBehaviour
  | surfaceFormat :: _ =>
    if app.depthBuffer then
      let depthFormat :=
        getSupportedDepthFormat depthStencil physicalDevice.formatProperties false true
      .ok { app with renderPass := some ⟨[surfaceFormat.format, depthFormat]⟩ }
    else
      .ok { app with renderPass := some ⟨[surfaceFormat.format]⟩ }

/-- One turn of the loop of `createFramebuffer`: the framebuffer of one swapchain image is
pushed onto `framebuffers`. -/
def pushFramebuffer (app : VulkanApp) (image : Nat) : VulkanApp :=
  { app with
    framebuffers := app.framebuffers ++
      [⟨app.renderPass,
        if app.depthBuffer then [ImageView.swapchainImage image, ImageView.depthStencil]
        else [ImageView.swapchainImage image]⟩] }

/-- The method `VulkanApp::createFramebuffer`: one turn per image of
`swapchain->getImages()`. -/
def createFramebuffer (app : VulkanApp) : Except Failure VulkanApp :=
  match app.swapchain with
  | none => .error .undefinedBehaviour
  | some swapchain =>
    let app := if app.depthBuffer then { app with depthStencilView := some .depthStencil } else app
    .ok ((List.range swapchain.images).foldl pushFramebuffer app)

/-- The line printed by the `catch (...)` handler of `createCommandBuffers`. -/
def transferQueueNotPresent : String := "Transfer queue not present\n"

/-- The method `VulkanApp::createCommandBuffers`. The statements before the `try` block
fill `commandPools[0]`, `commandBuffers` and `cmdImageCopy`; the `try` block assigns
`commandPools[1]` and `cmdBufferCopy` as far as it gets, and the handler only prints. -/
def createCommandBuffers (physicalDevice : PhysicalDevice) (app : VulkanApp) : VulkanApp :=
  let pool : CommandPool := ⟨0, physicalDevice.graphicsQueueFamilyIndex, 0⟩
  let draw := pool.allocateCommandBuffers (toUInt32 app.framebuffers.length) true
  let copy := draw.2.allocateCommandBuffer true
  let app := { app with
    graphicsPool := some copy.2, commandBuffers := draw.1, cmdImageCopy := some copy.1 }
  match physicalDevice.transferQueue with
  | .present family =>
    let transfer := (CommandPool.mk 1 family 0).allocateCommandBuffer true
    { app with transferPool := some transfer.2, cmdBufferCopy := some transfer.1 }
  | .getQueueThrows =>
    { app with cout := app.cout ++ [transferQueueNotPresent] }
  | .commandPoolThrows _ =>
    { app with cout := app.cout ++ [transferQueueNotPresent] }
  | .allocateThrows family =>
    { app with transferPool := some ⟨1, family, 0⟩,
               cout := app.cout ++ [transferQueueNotPresent] }

/-- One turn of the loop of `createSyncPrimitives`: a fence created with
`signaled = true` is pushed onto `waitFences`. -/
def pushFence (app : VulkanApp) (_i : Nat) : VulkanApp :=
  { app with
    waitFences := app.waitFences ++ [⟨app.fencesCreated, true⟩],
    fencesCreated := app.fencesCreated + 1 }

/-- The number of turns of `for (int i = 0; i < (int)size; ++i)`. -/
def intLoopTurns (size : Nat) : Nat := (toInt32 size).toNat

/-- The method `VulkanApp::createSyncPrimitives`. -/
def createSyncPrimitives (app : VulkanApp) : VulkanApp :=
  let app := { app with
    presentFinished := some ⟨app.semaphoresCreated⟩,
    renderFinished := some ⟨app.semaphoresCreated + 1⟩,
    semaphoresCreated := app.semaphoresCreated + 2 }
  (List.range (intLoopTurns app.commandBuffers.length)).foldl pushFence app

/-- The method `VulkanApp::initialize` (its name is a reserved word here). -/
def init (NDEBUG : Bool) (physicalDevice : PhysicalDevice) (app : VulkanApp) :
    Except Failure VulkanApp := do
  let app := createInstance physicalDevice app
  let app := createLogicalDevice physicalDevice app
  let app ← createSwapchain NDEBUG physicalDevice false app
  let app ← createRenderPass physicalDevice app
  let app ← createFramebuffer app
  let app := createCommandBuffers physicalDevice app
  let app := createSyncPrimitives app
  pure { app with pipelineCache := true }

/-- The method `VulkanApp::submitCmdBuffer`; the `bool` it returns is the answer of the
queue and is left out. -/
def submitCmdBuffer (app : VulkanApp) (bufferIndex : Nat) : Except Failure VulkanApp :=
  match app.commandBuffers[bufferIndex]?, app.waitFences[bufferIndex]? with
  | some cmdBuffer, some fence =>
    .ok { app with calls := app.calls ++
      [Op.submit cmdBuffer VK_PIPELINE_STAGE_COLOR_ATTACHMENT_OUTPUT_BIT
        app.presentFinished app.renderFinished (some fence)] }
  | _, _ => .error .undefinedBehaviour

/-! ## `SobelApp` (`src/sobel/sobel.cpp`) -/

inductive FrontFace
  | counterClockwise
  | clockwise
deriving DecidableEq, Repr

/-- A rasterization state as far as its name in `magma::renderstates` tells: the polygon
mode, whether back faces are culled, and the winding of front faces. -/
structure RasterizationState where
  fill : Bool
  cullBack : Bool
  frontFace : FrontFace
deriving DecidableEq, Repr

/-- Modelled from the spec: `magma::renderstates::fillCullBackCW` is declared outside
`src/`; filled polygons, back-face culling, clockwise winding. -/
def fillCullBackCW : RasterizationState := ⟨true, true, .clockwise⟩

/-- Modelled from the spec: `magma::renderstates::fillCullBackCCW` is declared outside
`src/`; filled polygons, back-face culling, counter-clockwise winding. -/
def fillCullBackCCW : RasterizationState := ⟨true, true, .counterClockwise⟩

/-- A command recorded into a command buffer, with the arguments as the command buffer
receives them. -/
inductive Command
  | setRenderArea (x y : Nat) (extent : VkExtent2D)
  | beginRenderPass (framebuffer : ImageView)
  | setViewport (x y width : Nat) (height : Int)
  | setScissor (x y : Nat) (extent : VkExtent2D)
  | bindDescriptorSet
  | bindPipeline (rasterization : RasterizationState)
  | draw
  | endRenderPass
  | blit (framebuffer : Framebuffer) (source : ImageView)
deriving DecidableEq, Repr

structure BezierPatchMesh where
  subdivisionDegree : Nat
  cmdBuffer : Option CommandBuffer
deriving DecidableEq, Repr

/-- The members of `SobelApp` on top of those of `VulkanApp`; `fbExtent` is the extent of
`fb.framebuffer`, `recorded` the contents of the command buffers recorded so far. -/
structure SobelApp extends VulkanApp where
  negateViewport : Bool
  mesh : Option BezierPatchMesh
  fbExtent : Option VkExtent2D
  rtCmdBuffer : Option CommandBuffer
  rtSemaphore : Option Semaphore
  rtSolidDrawPipeline : Option RasterizationState
  recorded : List (CommandBuffer × List Command)
deriving DecidableEq, Repr

def fbSize : Nat := 256

/-- Modelled from the spec: the enumerators `FrontBuffer`, `BackBuffer` are declared in
`vulkanApp.h`, outside `src/`; they index the first and the second swapchain image. -/
def FrontBuffer : Nat := 0

/-- Modelled from the spec: see `FrontBuffer`. -/
def BackBuffer : Nat := 1

/-- The device call `op` is issued. -/
def SobelApp.issue (app : SobelApp) (op : Op) : SobelApp :=
  { app with calls := app.calls ++ [op] }

/-- The method `SobelApp::createMesh`: the mesh is built with `cmdBufferCopy`. -/
def createMesh (app : SobelApp) : SobelApp :=
  { app with mesh := some ⟨8, app.cmdBufferCopy⟩ }

/-- The method `SobelApp::createFramebuffer(const VkExtent2D&)`. -/
def SobelApp.createFramebuffer (extent : VkExtent2D) (app : SobelApp) : SobelApp :=
  { app with fbExtent := some extent }

/-- The method `SobelApp::setupPipelines`: the rasterization state of
`rtSolidDrawPipeline`. -/
def setupPipelines (app : SobelApp) : SobelApp :=
  { app with
    rtSolidDrawPipeline := some (if app.negateViewport then fillCullBackCW else fillCullBackCCW) }

/-- The fourth argument of `setViewport` in `recordRenderToTextureCommandBuffer`:
`negateViewport ? -height : height` on `uint32_t`. -/
def viewportHeightArgument (negateViewport : Bool) (height : Nat) : Nat :=
  if negateViewport then negUInt32 height else height

/-- Modelled from the spec: `magma::CommandBuffer::setViewport` is declared outside
`src/`. The spec has the viewport height negated, so the `uint32_t` argument is received
as a signed 32-bit height. -/
def viewportHeightParameter (argument : Nat) : Int := toInt32 argument

/-- The method `SobelApp::recordRenderToTextureCommandBuffer`. -/
def recordRenderToTextureCommandBuffer (app : SobelApp) : Except Failure SobelApp :=
  match app.graphicsPool, app.fbExtent, app.rtSolidDrawPipeline with
  | some pool, some extent, some pipeline =>
    let rt := pool.allocateCommandBuffer true
    .ok { app with
      graphicsPool := some rt.2,
      rtCmdBuffer := some rt.1,
      rtSemaphore := some ⟨app.semaphoresCreated⟩,
      semaphoresCreated := app.semaphoresCreated + 1,
      recorded := app.recorded ++
        [(rt.1,
          [Command.setRenderArea 0 0 extent,
           Command.beginRenderPass .offscreenColor,
           Command.setViewport 0 0 extent.width
             (viewportHeightParameter (viewportHeightArgument app.negateViewport extent.height)),
           Command.setScissor 0 0 extent,
           Command.bindDescriptorSet,
           Command.bindPipeline pipeline,
           Command.draw,
           Command.endRenderPass])] }
  | _, _, _ => .error .undefinedBehaviour

/-- The method `SobelApp::recordCommandBuffer`. -/
def recordCommandBuffer (index : Nat) (app : SobelApp) : Except Failure SobelApp :=
  match app.commandBuffers[index]?, app.framebuffers[index]? with
  | some cmdBuffer, some framebuffer =>
    .ok { app with recorded := app.recorded ++ [(cmdBuffer, [Command.blit framebuffer .offscreenColor])] }
  | _, _ => .error .undefinedBehaviour

/-- The constructor `SobelApp::SobelApp`. The view, the uniform buffer, the descriptor set
and the timer hold no state that the modelled methods read. -/
def SobelApp.new (NDEBUG : Bool) (physicalDevice : PhysicalDevice) : Except Failure SobelApp := do
  let base ← init NDEBUG physicalDevice (VulkanApp.new 512 512 true)
  let app : SobelApp :=
    { toVulkanApp := base, negateViewport := false, mesh := none, fbExtent := none,
      rtCmdBuffer := none, rtSemaphore := none, rtSolidDrawPipeline := none, recorded := [] }
  let app := { app with
    negateViewport := app.KHR_maintenance1 || app.AMD_negative_viewport_height }
  let app := createMesh app
  let app := SobelApp.createFramebuffer ⟨fbSize, fbSize⟩ app
  let app := setupPipelines app
  let app ← recordRenderToTextureCommandBuffer app
  let app ← recordCommandBuffer FrontBuffer app
  recordCommandBuffer BackBuffer app

/-- The method `SobelApp::render`. -/
def render (app : SobelApp) (bufferIndex : Nat) : Except Failure SobelApp :=
  let app := app.issue .mapUniformBuffer
  match app.rtCmdBuffer with
  | none => .error .undefinedBehaviour
  | some rtCmdBuffer =>
    let app := app.issue
      (.submit rtCmdBuffer VK_PIPELINE_STAGE_COLOR_ATTACHMENT_OUTPUT_BIT
        app.presentFinished app.rtSemaphore none)
    match app.commandBuffers[bufferIndex]?, app.waitFences[bufferIndex]? with
    | some cmdBuffer, some fence =>
      .ok (app.issue
        (.submit cmdBuffer VK_PIPELINE_STAGE_COLOR_ATTACHMENT_OUTPUT_BIT
          app.rtSemaphore app.renderFinished (some fence)))
    | _, _ => .error .undefinedBehaviour

/-- The method `VulkanApp::onPaint` with `render` bound to `SobelApp::render`;
`bufferIndex` is the image index that `acquireNextImage` returns. -/
def onPaint (app : SobelApp) (bufferIndex : Nat) : Except Failure SobelApp :=
  let app := app.issue (.acquireNextImage app.presentFinished none bufferIndex)
  match app.waitFences[bufferIndex]? with
  | none => .error .undefinedBehaviour
  | some fence =>
    let app := app.issue (.fenceWait fence)
    let app := app.issue (.fenceReset fence)
    match render app bufferIndex with
    | .error failure => .error failure
    | .ok app =>
      let app := app.issue (.present bufferIndex app.renderFinished)
      .ok (app.issue .waitIdle)

/-- The method `VulkanApp::onIdle`. -/
def onIdle (app : SobelApp) (bufferIndex : Nat) : Except Failure SobelApp :=
  onPaint app bufferIndex

/-- The frames of a run: `onIdle` once per acquired image index. -/
def frames (app : SobelApp) : List Nat → Except Failure SobelApp
  | [] => .ok app
  | bufferIndex :: rest =>
    match onIdle app bufferIndex with
    | .error failure => .error failure
    | .ok app => frames app rest

/-! ## Fences and submissions in flight

The host and the device run side by side. The host performs the recorded calls in program
order; the device may finish any submission in flight at any moment. A schedule is one
interleaving of the two. Which submissions the device may finish is not restricted by
semaphores here, so every behaviour of a real device is among the schedules. -/

/-- A submission in flight with the fence it signals on completion; an image acquisition
that was given a fence is in flight without a command buffer. -/
structure Submission where
  cmdBuffer : Option CommandBuffer
  fence : Option Fence
deriving DecidableEq, Repr

/-- The fences that are currently unsignaled and the submissions that have not completed. -/
structure Gpu where
  unsignaled : List Fence
  pending : List Submission
deriving DecidableEq, Repr

/-- The device before the first frame: a fence is unsignaled exactly when its constructor
was told so, and nothing is in flight. -/
def Gpu.start (waitFences : List Fence) : Gpu :=
  ⟨waitFences.filter (fun fence => !fence.signaled), []⟩

/-- One step of a schedule: the host performs its next call, or the device completes the
`k`-th submission in flight. -/
inductive Event
  | host
  | complete (k : Nat)
deriving DecidableEq, Repr

/-- Where a schedule leads. `blocked op`: the host cannot return from `op` in the current
state (it has to wait for the device). `resubmitted`: a command buffer was submitted while
an earlier submission of it was still in flight. `fenceInUse`: a fence was reset while in
flight, or handed to a submission while signaled or in flight. `noSuchEvent`: the schedule
asks for a call after the last one or for a completion that is not in flight. -/
inductive Outcome
  | running (gpu : Gpu) (rest : List Op)
  | blocked (op : Op)
  | resubmitted (cmdBuffer : CommandBuffer)
  | fenceInUse (fence : Fence)
  | noSuchEvent
deriving DecidableEq, Repr

def Gpu.inFlight (gpu : Gpu) (cmdBuffer : CommandBuffer) : Bool :=
  gpu.pending.any (fun s => s.cmdBuffer == some cmdBuffer)

def Gpu.fenceInFlight (gpu : Gpu) (fence : Fence) : Bool :=
  gpu.pending.any (fun s => s.fence == some fence)

/-- The host performs `op`; `rest` are the calls after it. -/
def hostStep (gpu : Gpu) (rest : List Op) : Op → Outcome
  | .acquireNextImage _ none _ => .running gpu rest
  | .acquireNextImage _ (some fence) _ =>
    if gpu.unsignaled.contains fence && !gpu.fenceInFlight fence then
      .running { gpu with pending := gpu.pending ++ [⟨none, some fence⟩] } rest
    else .fenceInUse fence
  | .fenceWait fence =>
    if gpu.unsignaled.contains fence then .blocked (.fenceWait fence) else .running gpu rest
  | .fenceReset fence =>
    if gpu.fenceInFlight fence then .fenceInUse fence
    else if gpu.unsignaled.contains fence then .running gpu rest
    else .running { gpu with unsignaled := fence :: gpu.unsignaled } rest
  | .mapUniformBuffer => .running gpu rest
  | .submit cmdBuffer _ _ _ none =>
    if gpu.inFlight cmdBuffer then .resubmitted cmdBuffer
    else .running { gpu with pending := gpu.pending ++ [⟨some cmdBuffer, none⟩] } rest
  | .submit cmdBuffer _ _ _ (some fence) =>
    if gpu.inFlight cmdBuffer then .resubmitted cmdBuffer
    else if gpu.unsignaled.contains fence && !gpu.fenceInFlight fence then
      .running { gpu with pending := gpu.pending ++ [⟨some cmdBuffer, some fence⟩] } rest
    else .fenceInUse fence
  | .present _ _ => .running gpu rest
  | .waitIdle => if gpu.pending.isEmpty then .running gpu rest else .blocked .waitIdle

/-- The device completes the `k`-th submission in flight and signals its fence. -/
def complete (gpu : Gpu) (k : Nat) : Option Gpu :=
  match gpu.pending[k]? with
  | none => none
  | some submission =>
    some
      { unsignaled :=
          match submission.fence with
          | none => gpu.unsignaled
          | some fence => gpu.unsignaled.filter (fun other => other != fence)
        pending := gpu.pending.eraseIdx k }

/-- One step of a schedule. -/
def step (gpu : Gpu) (ops : List Op) : Event → Outcome
  | .host =>
    match ops with
    | [] => .noSuchEvent
    | op :: rest => hostStep gpu rest op
  | .complete k =>
    match complete gpu k with
    | none => .noSuchEvent
    | some gpu => .running gpu ops

/-- The outcome of a schedule run on the calls `ops` from the device state `gpu`. -/
def run (gpu : Gpu) (ops : List Op) : List Event → Outcome
  | [] => .running gpu ops
  | event :: schedule =>
    match step gpu ops event with
    | .running gpu ops => run gpu ops schedule
    | outcome => outcome

/-- The fence discipline holds along a schedule: no command buffer is resubmitted while in
flight, no fence is misused, and the host never has to wait at a fence. -/
def Outcome.disciplined : Outcome → Bool
  | .resubmitted _ => false
  | .fenceInUse _ => false
  | .blocked (.fenceWait _) => false
  | _ => true

/-- The schedule that lets the device finish its work only when the host waits for it:
seven calls of a frame, the two submissions completed in order, then `waitIdle`. -/
def lazySchedule : Nat → List Event
  | 0 => []
  | n + 1 =>
    [.host, .host, .host, .host, .host, .host, .host, .complete 0, .complete 0, .host]
      ++ lazySchedule n

/-! ## Semaphores

An image acquisition, a queue submission and a present are carried out by the device some
time after the host has issued them. Binary semaphore semantics: an operation that waits on
a semaphore runs only while that semaphore is signalled and unsignals it; an operation that
signals a semaphore leaves it signalled when it is done. -/

/-- The operations that the device carries out: acquisition, submission, present. -/
def Op.isQueueOp : Op → Bool
  | .acquireNextImage _ _ _ => true
  | .submit _ _ _ _ _ => true
  | .present _ _ => true
  | _ => false

/-- The semaphore an operation waits on. -/
def Op.waitsOn : Op → Option Semaphore
  | .submit _ _ waitSemaphore _ _ => waitSemaphore
  | .present _ waitSemaphore => waitSemaphore
  | _ => none

/-- The semaphore an operation signals. -/
def Op.signals : Op → Option Semaphore
  | .acquireNextImage semaphore _ _ => semaphore
  | .submit _ _ _ signalSemaphore _ => signalSemaphore
  | _ => none

/-- The set of signalled semaphores after `op` has signalled its own. -/
def afterSignal (signalled : List Semaphore) (op : Op) : List Semaphore :=
  match op.signals with
  | none => signalled
  | some semaphore => semaphore :: signalled

/-- The device carries out `op` when `signalled` are the signalled semaphores; `none` when
`op` waits on a semaphore that is not signalled. -/
def execute (signalled : List Semaphore) (op : Op) : Option (List Semaphore) :=
  match op.waitsOn with
  | none => some (afterSignal signalled op)
  | some semaphore =>
    if signalled.contains semaphore then some (afterSignal (signalled.erase semaphore) op)
    else none

/-- The device carries out the operations in the given order. -/
def executeAll (signalled : List Semaphore) : List Op → Option (List Semaphore)
  | [] => some signalled
  | op :: rest =>
    match execute signalled op with
    | none => none
    | some signalled => executeAll signalled rest

/-- The calls issued by one `onPaint`: those it appended to `calls`. -/
def issuedBy (before after : SobelApp) : List Op :=
  after.calls.drop before.calls.length


/-- The scan of `getSupportedDepthFormat` returns at `format`: the format is not skipped
for want of a stencil aspect, and its features under the requested tiling contain the
depth-stencil-attachment bit. -/
def acceptsDepthFormat (stencilAspect : VkFormat → Bool)
    (getFormatProperties : VkFormat → VkFormatProperties)
    (hasStencil optimalTiling : Bool) (format : VkFormat) : Bool :=
  (!hasStencil || stencilAspect format) &&
    supportsDepthAttachment getFormatProperties optimalTiling format

/-- A device table in which `VK_FORMAT_D32_SFLOAT` alone can be a depth-stencil
attachment, under optimal tiling. -/
def depthOnlyTable (format : VkFormat) : VkFormatProperties :=
  if format = VK_FORMAT_D32_SFLOAT then
    ⟨0, VK_FORMAT_FEATURE_DEPTH_STENCIL_ATTACHMENT_BIT, 0⟩
  else ⟨0, 0, 0⟩

/-- A device with a supported 512 x 512 surface, one surface format and every format
usable as a depth-stencil attachment; the extension flags, the fate of the transfer queue
and the number of swapchain images are as given. -/
def sampleDevice (KHR_maintenance1 AMD_negative_viewport_height : Bool)
    (transferQueue : TransferQueue) (swapchainImages : Nat) : PhysicalDevice :=
  { deviceName := "sample", surfaceSupport := true,
    surfaceCaps := ⟨3, ⟨512, 512⟩, 1, 1, 1⟩,
    surfaceFormats := [⟨44, 0⟩], presentModes := [2, 1],
    formatProperties := fun _ => ⟨0, VK_FORMAT_FEATURE_DEPTH_STENCIL_ATTACHMENT_BIT, 0⟩,
    KHR_maintenance1 := KHR_maintenance1,
    AMD_negative_viewport_height := AMD_negative_viewport_height,
    graphicsQueueFamilyIndex := 0, transferQueueFamilyIndex := 1,
    transferQueue := transferQueue, swapchainImages := swapchainImages }

/-- The application object before its constructor body has run. -/
def SobelApp.blank : SobelApp :=
  { toVulkanApp := VulkanApp.new 512 512 true, negateViewport := false, mesh := none,
    fbExtent := none, rtCmdBuffer := none, rtSemaphore := none, rtSolidDrawPipeline := none,
    recorded := [] }

/-- The application constructed on the sample device with two images. -/
def sampleApp : SobelApp :=
  match SobelApp.new false (sampleDevice true false .getQueueThrows 2) with
  | .ok app => app
  | .error _ => SobelApp.blank

/-- The height of a recorded `setViewport`. -/
def Command.viewportHeight : Command → Option Int
  | .setViewport _ _ _ height => some height
  | _ => none

/-- The rasterization state of a recorded `bindPipeline`. -/
def Command.boundPipeline : Command → Option RasterizationState
  | .bindPipeline rasterization => some rasterization
  | _ => none

/-! ## The calls of a run, frame by frame -/

/-- The image index acquired in a frame with the command buffer and the fence of that
image. -/
structure Frame where
  index : Nat
  cmdBuffer : CommandBuffer
  fence : Fence
deriving DecidableEq, Repr

/-- The eight calls that `onPaint` issues in a frame (theorem `onPaint_ok`), for given
semaphores and a given `rtCmdBuffer`. -/
def frameCalls (presentFinished rtSemaphore renderFinished : Option Semaphore)
    (rt : CommandBuffer) (frame : Frame) : List Op :=
  [Op.acquireNextImage presentFinished none frame.index,
   Op.fenceWait frame.fence,
   Op.fenceReset frame.fence,
   Op.mapUniformBuffer,
   Op.submit rt VK_PIPELINE_STAGE_COLOR_ATTACHMENT_OUTPUT_BIT presentFinished rtSemaphore none,
   Op.submit frame.cmdBuffer VK_PIPELINE_STAGE_COLOR_ATTACHMENT_OUTPUT_BIT
     rtSemaphore renderFinished (some frame.fence),
   Op.present frame.index renderFinished,
   Op.waitIdle]

/-- The device states that can occur when the host has performed `pc` calls of a frame
that started with every fence signaled and nothing in flight. -/
def frameStates (rt : CommandBuffer) (frame : Frame) : Nat → List Gpu
  | 0 => [⟨[], []⟩]
  | 1 => [⟨[], []⟩]
  | 2 => [⟨[], []⟩]
  | 3 => [⟨[frame.fence], []⟩]
  | 4 => [⟨[frame.fence], []⟩]
  | 5 => [⟨[frame.fence], [⟨some rt, none⟩]⟩, ⟨[frame.fence], []⟩]
  | 6 =>
    [⟨[frame.fence], [⟨some rt, none⟩, ⟨some frame.cmdBuffer, some frame.fence⟩]⟩,
     ⟨[frame.fence], [⟨some frame.cmdBuffer, some frame.fence⟩]⟩,
     ⟨[], [⟨some rt, none⟩]⟩,
     ⟨[], []⟩]
  | 7 =>
    [⟨[frame.fence], [⟨some rt, none⟩, ⟨some frame.cmdBuffer, some frame.fence⟩]⟩,
     ⟨[frame.fence], [⟨some frame.cmdBuffer, some frame.fence⟩]⟩,
     ⟨[], [⟨some rt, none⟩]⟩,
     ⟨[], []⟩]
  | _ => []

/-- The invariant of a run: either all frames are done, every fence is signaled and
nothing is in flight, or the host is `pc` calls into a frame, whose command buffer is not
`rtCmdBuffer`, and the device is in one of the states of `frameStates`. -/
def Reachable (presentFinished rtSemaphore renderFinished : Option Semaphore)
    (rt : CommandBuffer) (gpu : Gpu) (ops : List Op) : Prop :=
  (gpu = ⟨[], []⟩ ∧ ops = []) ∨
  ∃ (pc : Nat) (frame : Frame) (rest : List Frame),
    pc < 8 ∧ frame.cmdBuffer ≠ rt ∧ (∀ later ∈ rest, later.cmdBuffer ≠ rt) ∧
    ops = (frameCalls presentFinished rtSemaphore renderFinished rt frame).drop pc ++
      rest.flatMap (frameCalls presentFinished rtSemaphore renderFinished rt) ∧
    gpu ∈ frameStates rt frame pc

/-! ## The debug report callback (`reportCallback`, lines 315-328)

A C string is the list of its characters before the terminating NUL. The two output
streams are the lists of the texts written to them, one entry per insertion. -/

abbrev VkBool32 := Nat

def VK_FALSE : VkBool32 := 0

def VK_DEBUG_REPORT_ERROR_BIT_EXT : VkFlags := 0x8

/-- The streams `std::cout` and `std::cerr`. -/
structure Streams where
  cout : List String
  cerr : List String
deriving DecidableEq, Repr

/-- The C function `strstr`: the offset of the first occurrence of `needle` in
`haystack`, `none` for the null pointer it returns when there is no occurrence. -/
def strstr : List Char → List Char → Option Nat
  | [], needle => if needle.isEmpty then some 0 else none
  | c :: haystack, needle =>
    if needle.isPrefixOf (c :: haystack) then some 0
    else (strstr haystack needle).map (fun offset => offset + 1)

/-- The function `reportCallback`. The parameters `objectType`, `object`, `location`,
`messageCode` are not read, and `pUserData` is left out. The result is the returned
`VkBool32` with the streams after the call. -/
def reportCallback (flags : VkFlags) (_objectType _object _location : Nat) (_messageCode : Int)
    (pLayerPrefix pMessage : String) (streams : Streams) : VkBool32 × Streams :=
  if (strstr pMessage.toList "Extension".toList).isSome then (VK_FALSE, streams)
  else
    let msg := "[" ++ pLayerPrefix ++ "] " ++ pMessage ++ "\n"
    if hasFlag flags VK_DEBUG_REPORT_ERROR_BIT_EXT then
      (VK_FALSE, { streams with cerr := streams.cerr ++ [msg] })
    else
      (VK_FALSE, { streams with cout := streams.cout ++ [msg] })

/-- The sample application after two frames, for the acquired image indices 1 and 0. -/
def paintedApp : SobelApp :=
  match frames sampleApp [1, 0] with
  | .ok app => app
  | .error _ => sampleApp

/-! # Theorems -/

/-! ## Present mode -/

theorem choosePresentMode_eq (vSync : Bool) (presentModes : List VkPresentModeKHR) :
    choosePresentMode vSync presentModes =
      if vSync = true then VK_PRESENT_MODE_FIFO_KHR
      else if VK_PRESENT_MODE_IMMEDIATE_KHR ∈ presentModes then VK_PRESENT_MODE_IMMEDIATE_KHR
      else if VK_PRESENT_MODE_MAILBOX_KHR ∈ presentModes then VK_PRESENT_MODE_MAILBOX_KHR
      else if VK_PRESENT_MODE_FIFO_RELAXED_KHR ∈ presentModes then VK_PRESENT_MODE_FIFO_RELAXED_KHR
      else VK_PRESENT_MODE_FIFO_KHR := by
  unfold choosePresentMode
  cases vSync
  · by_cases h0 : VK_PRESENT_MODE_IMMEDIATE_KHR ∈ presentModes <;>
    by_cases h1 : VK_PRESENT_MODE_MAILBOX_KHR ∈ presentModes <;>
    by_cases h3 : VK_PRESENT_MODE_FIFO_RELAXED_KHR ∈ presentModes <;>
    simp [searchPresentMode, modes, h0, h1, h3]
  · simp

/-- C1: the present mode chosen by `createSwapchain` is FIFO under vSync; otherwise it is
the first of immediate, mailbox, relaxed FIFO that occurs anywhere in the reported list,
FIFO when none of them occurs, and it does not depend on the order of the reported list. -/
theorem choosePresentMode_spec (vSync : Bool) (presentModes : List VkPresentModeKHR) :
    (vSync = true → choosePresentMode vSync presentModes = VK_PRESENT_MODE_FIFO_KHR) ∧
    (vSync = false → VK_PRESENT_MODE_IMMEDIATE_KHR ∈ presentModes →
      choosePresentMode vSync presentModes = VK_PRESENT_MODE_IMMEDIATE_KHR) ∧
    (vSync = false → VK_PRESENT_MODE_IMMEDIATE_KHR ∉ presentModes →
      VK_PRESENT_MODE_MAILBOX_KHR ∈ presentModes →
      choosePresentMode vSync presentModes = VK_PRESENT_MODE_MAILBOX_KHR) ∧
    (vSync = false → VK_PRESENT_MODE_IMMEDIATE_KHR ∉ presentModes →
      VK_PRESENT_MODE_MAILBOX_KHR ∉ presentModes →
      VK_PRESENT_MODE_FIFO_RELAXED_KHR ∈ presentModes →
      choosePresentMode vSync presentModes = VK_PRESENT_MODE_FIFO_RELAXED_KHR) ∧
    (vSync = false → VK_PRESENT_MODE_IMMEDIATE_KHR ∉ presentModes →
      VK_PRESENT_MODE_MAILBOX_KHR ∉ presentModes →
      VK_PRESENT_MODE_FIFO_RELAXED_KHR ∉ presentModes →
      choosePresentMode vSync presentModes = VK_PRESENT_MODE_FIFO_KHR) ∧
    (∀ reordered : List VkPresentModeKHR,
      (∀ mode, mode ∈ reordered ↔ mode ∈ presentModes) →
      choosePresentMode vSync reordered = choosePresentMode vSync presentModes) := by
  refine ⟨?_, ?_, ?_, ?_, ?_, ?_⟩
  · intro h; simp [choosePresentMode_eq, h]
  · intro h h0; simp [choosePresentMode_eq, h, h0]
  · intro h h0 h1; simp [choosePresentMode_eq, h, h0, h1]
  · intro h h0 h1 h3; simp [choosePresentMode_eq, h, h0, h1, h3]
  · intro h h0 h1 h3; simp [choosePresentMode_eq, h, h0, h1, h3]
  · intro reordered hmem
    simp only [choosePresentMode_eq, hmem]

/-- C1 at concrete devices: vSync gives FIFO; FIFO, relaxed FIFO, mailbox reported without
vSync gives mailbox; FIFO alone gives FIFO; a reordered report gives the same mode. -/
theorem choosePresentMode_spec_witness :
    choosePresentMode true [0, 1] = VK_PRESENT_MODE_FIFO_KHR ∧
    choosePresentMode false [2, 3, 1] = VK_PRESENT_MODE_MAILBOX_KHR ∧
    choosePresentMode false [2] = VK_PRESENT_MODE_FIFO_KHR ∧
    choosePresentMode false [1, 3, 2] = choosePresentMode false [2, 3, 1] :=
  ⟨(choosePresentMode_spec true [0, 1]).1 rfl,
   (choosePresentMode_spec false [2, 3, 1]).2.2.1 rfl (by decide) (by decide),
   (choosePresentMode_spec false [2]).2.2.2.2.1 rfl (by decide) (by decide) (by decide),
   (choosePresentMode_spec false [2, 3, 1]).2.2.2.2.2 [1, 3, 2]
     (fun mode => by simp only [List.mem_cons, List.mem_singleton, List.not_mem_nil]; tauto)⟩

/-! ## Composite alpha -/

theorem chooseCompositeAlpha_eq (supported : VkFlags) :
    chooseCompositeAlpha supported =
      if hasFlag supported VK_COMPOSITE_ALPHA_OPAQUE_BIT_KHR then VK_COMPOSITE_ALPHA_OPAQUE_BIT_KHR
      else if hasFlag supported VK_COMPOSITE_ALPHA_PRE_MULTIPLIED_BIT_KHR then
        VK_COMPOSITE_ALPHA_PRE_MULTIPLIED_BIT_KHR
      else if hasFlag supported VK_COMPOSITE_ALPHA_POST_MULTIPLIED_BIT_KHR then
        VK_COMPOSITE_ALPHA_POST_MULTIPLIED_BIT_KHR
      else if hasFlag supported VK_COMPOSITE_ALPHA_INHERIT_BIT_KHR then
        VK_COMPOSITE_ALPHA_INHERIT_BIT_KHR
      else VK_COMPOSITE_ALPHA_OPAQUE_BIT_KHR := by
  simp [chooseCompositeAlpha, scanCompositeAlpha, compositeAlphaFlags]

/-- A mask that meets the union of the four composite-alpha bits meets one of them. -/
theorem hasFlag_compositeAlpha_union (supported : VkFlags)
    (h : hasFlag supported 15 = true) :
    hasFlag supported VK_COMPOSITE_ALPHA_OPAQUE_BIT_KHR = true ∨
    hasFlag supported VK_COMPOSITE_ALPHA_PRE_MULTIPLIED_BIT_KHR = true ∨
    hasFlag supported VK_COMPOSITE_ALPHA_POST_MULTIPLIED_BIT_KHR = true ∨
    hasFlag supported VK_COMPOSITE_ALPHA_INHERIT_BIT_KHR = true := by
  by_contra hc
  simp only [not_or, hasFlag, bne_iff_ne, ne_eq, not_not, VK_COMPOSITE_ALPHA_OPAQUE_BIT_KHR,
    VK_COMPOSITE_ALPHA_PRE_MULTIPLIED_BIT_KHR, VK_COMPOSITE_ALPHA_POST_MULTIPLIED_BIT_KHR,
    VK_COMPOSITE_ALPHA_INHERIT_BIT_KHR] at hc h
  apply h
  have h15 : (15 : Nat) = 1 ||| 2 ||| 4 ||| 8 := by decide
  rw [h15, Nat.and_or_distrib_left, Nat.and_or_distrib_left, Nat.and_or_distrib_left,
    hc.1, hc.2.1, hc.2.2.1, hc.2.2.2]
  rfl

/-- C3: the composite alpha chosen by `createSwapchain` is the first of opaque,
pre-multiplied, post-multiplied, inherit whose bit is set in the supported mask, and opaque
when none of the four bits is set; it is always one of the four, and it is a supported one
whenever the mask has any of the four bits. -/
theorem chooseCompositeAlpha_spec (supported : VkFlags) :
    (hasFlag supported VK_COMPOSITE_ALPHA_OPAQUE_BIT_KHR = true →
      chooseCompositeAlpha supported = VK_COMPOSITE_ALPHA_OPAQUE_BIT_KHR) ∧
    (hasFlag supported VK_COMPOSITE_ALPHA_OPAQUE_BIT_KHR = false →
      hasFlag supported VK_COMPOSITE_ALPHA_PRE_MULTIPLIED_BIT_KHR = true →
      chooseCompositeAlpha supported = VK_COMPOSITE_ALPHA_PRE_MULTIPLIED_BIT_KHR) ∧
    (hasFlag supported VK_COMPOSITE_ALPHA_OPAQUE_BIT_KHR = false →
      hasFlag supported VK_COMPOSITE_ALPHA_PRE_MULTIPLIED_BIT_KHR = false →
      hasFlag supported VK_COMPOSITE_ALPHA_POST_MULTIPLIED_BIT_KHR = true →
      chooseCompositeAlpha supported = VK_COMPOSITE_ALPHA_POST_MULTIPLIED_BIT_KHR) ∧
    (hasFlag supported VK_COMPOSITE_ALPHA_OPAQUE_BIT_KHR = false →
      hasFlag supported VK_COMPOSITE_ALPHA_PRE_MULTIPLIED_BIT_KHR = false →
      hasFlag supported VK_COMPOSITE_ALPHA_POST_MULTIPLIED_BIT_KHR = false →
      hasFlag supported VK_COMPOSITE_ALPHA_INHERIT_BIT_KHR = true →
      chooseCompositeAlpha supported = VK_COMPOSITE_ALPHA_INHERIT_BIT_KHR) ∧
    ((∀ flag ∈ compositeAlphaFlags, hasFlag supported flag = false) →
      chooseCompositeAlpha supported = VK_COMPOSITE_ALPHA_OPAQUE_BIT_KHR) ∧
    chooseCompositeAlpha supported ∈ compositeAlphaFlags ∧
    ((∃ flag ∈ compositeAlphaFlags, hasFlag supported flag = true) →
      hasFlag supported (chooseCompositeAlpha supported) = true) ∧
    (hasFlag supported 15 = true →
      hasFlag supported (chooseCompositeAlpha supported) = true) := by
  have key : (∃ flag ∈ compositeAlphaFlags, hasFlag supported flag = true) →
      hasFlag supported (chooseCompositeAlpha supported) = true := by
    rintro ⟨flag, hmem, hflag⟩
    rw [chooseCompositeAlpha_eq]
    simp only [compositeAlphaFlags, List.mem_cons, List.mem_singleton, List.not_mem_nil,
      or_false] at hmem
    by_cases h1 : hasFlag supported VK_COMPOSITE_ALPHA_OPAQUE_BIT_KHR = true
    · simp [h1]
    by_cases h2 : hasFlag supported VK_COMPOSITE_ALPHA_PRE_MULTIPLIED_BIT_KHR = true
    · simp [h1, h2]
    by_cases h4 : hasFlag supported VK_COMPOSITE_ALPHA_POST_MULTIPLIED_BIT_KHR = true
    · simp [h1, h2, h4]
    by_cases h8 : hasFlag supported VK_COMPOSITE_ALPHA_INHERIT_BIT_KHR = true
    · simp [h1, h2, h4, h8]
    rcases hmem with rfl | rfl | rfl | rfl <;> simp_all
  refine ⟨?_, ?_, ?_, ?_, ?_, ?_, key, ?_⟩
  · intro h1; simp [chooseCompositeAlpha_eq, h1]
  · intro h1 h2; simp [chooseCompositeAlpha_eq, h1, h2]
  · intro h1 h2 h4; simp [chooseCompositeAlpha_eq, h1, h2, h4]
  · intro h1 h2 h4 h8; simp [chooseCompositeAlpha_eq, h1, h2, h4, h8]
  · intro hnone
    simp only [compositeAlphaFlags, List.mem_cons, List.mem_singleton, List.not_mem_nil,
      or_false, forall_eq_or_imp, forall_eq] at hnone
    simp [chooseCompositeAlpha_eq, hnone.1, hnone.2.1, hnone.2.2.1, hnone.2.2.2]
  · rw [chooseCompositeAlpha_eq]
    simp only [compositeAlphaFlags, List.mem_cons, List.mem_singleton, List.not_mem_nil, or_false]
    split_ifs <;> simp
  · intro h15
    apply key
    rcases hasFlag_compositeAlpha_union supported h15 with h | h | h | h
    · exact ⟨_, by simp [compositeAlphaFlags], h⟩
    · exact ⟨_, by simp [compositeAlphaFlags], h⟩
    · exact ⟨_, by simp [compositeAlphaFlags], h⟩
    · exact ⟨_, by simp [compositeAlphaFlags], h⟩

/-- C3 at concrete masks: post-multiplied and inherit supported gives post-multiplied; an
empty mask gives opaque; the mask 12 has one of the four bits, and the chosen flag is in
it. -/
theorem chooseCompositeAlpha_spec_witness :
    chooseCompositeAlpha 12 = VK_COMPOSITE_ALPHA_POST_MULTIPLIED_BIT_KHR ∧
    chooseCompositeAlpha 0 = VK_COMPOSITE_ALPHA_OPAQUE_BIT_KHR ∧
    hasFlag 12 (chooseCompositeAlpha 12) = true ∧
    hasFlag 10 (chooseCompositeAlpha 10) = true :=
  ⟨(chooseCompositeAlpha_spec 12).2.2.1 (by decide) (by decide) (by decide),
   (chooseCompositeAlpha_spec 0).2.2.2.2.1 (by decide),
   (chooseCompositeAlpha_spec 12).2.2.2.2.2.2.1 ⟨4, by decide, by decide⟩,
   (chooseCompositeAlpha_spec 10).2.2.2.2.2.2.2 (by decide)⟩

/-! ## Depth format -/

theorem scanDepthFormats_cons (stencilAspect : VkFormat → Bool)
    (getFormatProperties : VkFormat → VkFormatProperties) (hasStencil optimalTiling : Bool)
    (format : VkFormat) (rest : List VkFormat) :
    scanDepthFormats stencilAspect getFormatProperties hasStencil optimalTiling (format :: rest) =
      if acceptsDepthFormat stencilAspect getFormatProperties hasStencil optimalTiling format then
        format
      else scanDepthFormats stencilAspect getFormatProperties hasStencil optimalTiling rest := by
  cases hasStencil <;> cases optimalTiling <;> cases hs : stencilAspect format <;>
    simp [scanDepthFormats, acceptsDepthFormat, supportsDepthAttachment, hs]

theorem scanDepthFormats_first (stencilAspect : VkFormat → Bool)
    (getFormatProperties : VkFormat → VkFormatProperties) (hasStencil optimalTiling : Bool)
    (pre : List VkFormat) (format : VkFormat) (post : List VkFormat)
    (hpre : ∀ earlier ∈ pre,
      acceptsDepthFormat stencilAspect getFormatProperties hasStencil optimalTiling earlier = false)
    (hformat :
      acceptsDepthFormat stencilAspect getFormatProperties hasStencil optimalTiling format = true) :
    scanDepthFormats stencilAspect getFormatProperties hasStencil optimalTiling
      (pre ++ format :: post) = format := by
  induction pre with
  | nil => simp [scanDepthFormats_cons, hformat]
  | cons head tail ih =>
    have hhead := hpre head (by simp)
    simp only [List.cons_append, scanDepthFormats_cons, hhead]
    exact ih (fun earlier hmem => hpre earlier (by simp [hmem]))

theorem scanDepthFormats_none (stencilAspect : VkFormat → Bool)
    (getFormatProperties : VkFormat → VkFormatProperties) (hasStencil optimalTiling : Bool)
    (formats : List VkFormat)
    (hall : ∀ format ∈ formats,
      acceptsDepthFormat stencilAspect getFormatProperties hasStencil optimalTiling format = false) :
    scanDepthFormats stencilAspect getFormatProperties hasStencil optimalTiling formats =
      VK_FORMAT_UNDEFINED := by
  induction formats with
  | nil => rfl
  | cons head tail ih =>
    have hhead := hall head (by simp)
    simp only [scanDepthFormats_cons, hhead]
    exact ih (fun format hmem => hall format (by simp [hmem]))

theorem scanDepthFormats_mem (stencilAspect : VkFormat → Bool)
    (getFormatProperties : VkFormat → VkFormatProperties) (hasStencil optimalTiling : Bool)
    (formats : List VkFormat)
    (hsome : ∃ format ∈ formats,
      acceptsDepthFormat stencilAspect getFormatProperties hasStencil optimalTiling format = true) :
    scanDepthFormats stencilAspect getFormatProperties hasStencil optimalTiling formats ∈ formats := by
  induction formats with
  | nil => simp at hsome
  | cons head tail ih =>
    rw [scanDepthFormats_cons]
    by_cases hhead :
        acceptsDepthFormat stencilAspect getFormatProperties hasStencil optimalTiling head = true
    · simp [hhead]
    · simp only [hhead]
      obtain ⟨format, hmem, hacc⟩ := hsome
      rcases List.mem_cons.1 hmem with rfl | htail
      · exact absurd hacc hhead
      · exact List.mem_cons_of_mem _ (ih ⟨format, htail, hacc⟩)

/-- C2 as stated fails: asked for a stencil format on a device where only the pure depth
format `VK_FORMAT_D32_SFLOAT` supports depth-stencil attachment usage under optimal tiling,
`getSupportedDepthFormat` returns `VK_FORMAT_UNDEFINED` although a candidate of the list
supports that usage under the requested tiling. -/
theorem getSupportedDepthFormat_sentinel_with_supported_candidate :
    getSupportedDepthFormat depthStencil depthOnlyTable true true = VK_FORMAT_UNDEFINED ∧
    VK_FORMAT_D32_SFLOAT ∈ depthFormats ∧
    supportsDepthAttachment depthOnlyTable true VK_FORMAT_D32_SFLOAT = true := by
  decide

/-- C2, amended: `getSupportedDepthFormat` returns the first format of `depthFormats`
that is not skipped (it has a stencil aspect, or no stencil is asked for) and whose features
under the requested tiling contain the depth-stencil-attachment bit; it returns
`VK_FORMAT_UNDEFINED` exactly when no format of the list that is not skipped has the bit.
When no stencil is asked for, that is exactly when no format of the list has the bit. -/
theorem getSupportedDepthFormat_spec (stencilAspect : VkFormat → Bool)
    (getFormatProperties : VkFormat → VkFormatProperties) (hasStencil optimalTiling : Bool) :
    (∀ (pre : List VkFormat) (format : VkFormat) (post : List VkFormat),
      depthFormats = pre ++ format :: post →
      (∀ earlier ∈ pre, (hasStencil = true ∧ stencilAspect earlier = false) ∨
        supportsDepthAttachment getFormatProperties optimalTiling earlier = false) →
      (hasStencil = false ∨ stencilAspect format = true) →
      supportsDepthAttachment getFormatProperties optimalTiling format = true →
      getSupportedDepthFormat stencilAspect getFormatProperties hasStencil optimalTiling = format) ∧
    (getSupportedDepthFormat stencilAspect getFormatProperties hasStencil optimalTiling =
        VK_FORMAT_UNDEFINED ↔
      ∀ format ∈ depthFormats, (hasStencil = false ∨ stencilAspect format = true) →
        supportsDepthAttachment getFormatProperties optimalTiling format = false) ∧
    (hasStencil = false →
      (getSupportedDepthFormat stencilAspect getFormatProperties hasStencil optimalTiling =
          VK_FORMAT_UNDEFINED ↔
        ∀ format ∈ depthFormats,
          supportsDepthAttachment getFormatProperties optimalTiling format = false)) := by
  have hiff : getSupportedDepthFormat stencilAspect getFormatProperties hasStencil optimalTiling =
        VK_FORMAT_UNDEFINED ↔
      ∀ format ∈ depthFormats, (hasStencil = false ∨ stencilAspect format = true) →
        supportsDepthAttachment getFormatProperties optimalTiling format = false := by
    constructor
    · intro hres format hmem helig
      by_contra hsup
      have hacc : acceptsDepthFormat stencilAspect getFormatProperties hasStencil optimalTiling
          format = true := by
        rcases helig with h | h <;> simp_all [acceptsDepthFormat]
      have hin := scanDepthFormats_mem stencilAspect getFormatProperties hasStencil
        optimalTiling depthFormats ⟨format, hmem, hacc⟩
      unfold getSupportedDepthFormat at hres
      rw [hres] at hin
      exact absurd hin (by decide)
    · intro hall
      apply scanDepthFormats_none
      intro format hmem
      have := hall format hmem
      cases hasStencil <;> cases hs : stencilAspect format <;>
        simp_all [acceptsDepthFormat]
  refine ⟨?_, hiff, ?_⟩
  · intro pre format post hsplit hpre helig hsup
    unfold getSupportedDepthFormat
    rw [hsplit]
    apply scanDepthFormats_first
    · intro earlier hmem
      rcases hpre earlier hmem with ⟨h1, h2⟩ | h <;> simp_all [acceptsDepthFormat]
    · rcases helig with h | h <;> simp_all [acceptsDepthFormat]
  · intro hno
    rw [hiff]
    simp [hno]

/-- C2, amended, at concrete devices: with every format supported and a stencil asked for,
the first format is returned; on the table where only `VK_FORMAT_D32_SFLOAT` is supported,
that format is returned when no stencil is asked for. -/
theorem getSupportedDepthFormat_spec_witness :
    getSupportedDepthFormat depthStencil (fun _ => ⟨0, 0x200, 0⟩) true true =
      VK_FORMAT_D32_SFLOAT_S8_UINT ∧
    getSupportedDepthFormat depthStencil depthOnlyTable false true = VK_FORMAT_D32_SFLOAT ∧
    (getSupportedDepthFormat depthStencil (fun _ => ⟨0, 0, 0⟩) false true = VK_FORMAT_UNDEFINED ↔
      ∀ format ∈ depthFormats,
        supportsDepthAttachment (fun _ => ⟨0, 0, 0⟩) true format = false) :=
  ⟨(getSupportedDepthFormat_spec depthStencil (fun _ => ⟨0, 0x200, 0⟩) true true).1
      [] VK_FORMAT_D32_SFLOAT_S8_UINT _ rfl (by simp) (by decide) (by decide),
   (getSupportedDepthFormat_spec depthStencil depthOnlyTable false true).1
      [VK_FORMAT_D32_SFLOAT_S8_UINT] VK_FORMAT_D32_SFLOAT _ rfl (by decide) (by decide)
      (by decide),
   (getSupportedDepthFormat_spec depthStencil (fun _ => ⟨0, 0, 0⟩) false true).2.2 rfl⟩

/-! ## The calls of one frame -/

/-- The calls of one frame for image `i`, its fence and its command buffer. -/
theorem onPaint_ok (app : SobelApp) (i : Nat) (fence : Fence) (cmdBuffer rt : CommandBuffer)
    (hfence : app.waitFences[i]? = some fence)
    (hcmd : app.commandBuffers[i]? = some cmdBuffer)
    (hrt : app.rtCmdBuffer = some rt) :
    onPaint app i = .ok
      { app with calls := app.calls ++
          [Op.acquireNextImage app.presentFinished none i,
           Op.fenceWait fence,
           Op.fenceReset fence,
           Op.mapUniformBuffer,
           Op.submit rt VK_PIPELINE_STAGE_COLOR_ATTACHMENT_OUTPUT_BIT
             app.presentFinished app.rtSemaphore none,
           Op.submit cmdBuffer VK_PIPELINE_STAGE_COLOR_ATTACHMENT_OUTPUT_BIT
             app.rtSemaphore app.renderFinished (some fence),
           Op.present i app.renderFinished,
           Op.waitIdle] } := by
  simp [onPaint, render, SobelApp.issue, hfence, hcmd, hrt]

/-- C6: for an acquired image index `i` (an index into the per-image fences and command
buffers), one `onIdle` / `onPaint` returns normally, issues exactly the eight calls
acquire (acquire semaphore, no fence, yielding `i`), wait on `waitFences[i]`, reset
`waitFences[i]`, uniform write, submit `rtCmdBuffer` (color-attachment-output stage, no
fence), submit `commandBuffers[i]` (same stage, fence `waitFences[i]`), present image `i`,
wait idle, in this order, and changes nothing else. -/
theorem onIdle_protocol (app : SobelApp) (i : Nat) (fence : Fence)
    (cmdBuffer rt : CommandBuffer)
    (hfence : app.waitFences[i]? = some fence)
    (hcmd : app.commandBuffers[i]? = some cmdBuffer)
    (hrt : app.rtCmdBuffer = some rt) :
    ∃ after : SobelApp,
      onIdle app i = .ok after ∧ onPaint app i = .ok after ∧
      issuedBy app after =
        [Op.acquireNextImage app.presentFinished none i,
         Op.fenceWait fence,
         Op.fenceReset fence,
         Op.mapUniformBuffer,
         Op.submit rt VK_PIPELINE_STAGE_COLOR_ATTACHMENT_OUTPUT_BIT
           app.presentFinished app.rtSemaphore none,
         Op.submit cmdBuffer VK_PIPELINE_STAGE_COLOR_ATTACHMENT_OUTPUT_BIT
           app.rtSemaphore app.renderFinished (some fence),
         Op.present i app.renderFinished,
         Op.waitIdle] ∧
      after.calls = app.calls ++ issuedBy app after ∧
      after = { app with calls := after.calls } := by
  refine ⟨_, onPaint_ok app i fence cmdBuffer rt hfence hcmd hrt,
    onPaint_ok app i fence cmdBuffer rt hfence hcmd hrt, ?_, ?_, rfl⟩
  · simp [issuedBy]
  · simp [issuedBy]

/-- C6 on the application constructed on the sample device, image 1. -/
theorem onIdle_protocol_witness :
    ∃ after : SobelApp,
      onIdle sampleApp 1 = .ok after ∧ onPaint sampleApp 1 = .ok after ∧
      issuedBy sampleApp after =
        [Op.acquireNextImage (some ⟨0⟩) none 1,
         Op.fenceWait ⟨1, true⟩,
         Op.fenceReset ⟨1, true⟩,
         Op.mapUniformBuffer,
         Op.submit ⟨0, 0, 3, true⟩ 0x400 (some ⟨0⟩) (some ⟨2⟩) none,
         Op.submit ⟨0, 0, 1, true⟩ 0x400 (some ⟨2⟩) (some ⟨1⟩) (some ⟨1, true⟩),
         Op.present 1 (some ⟨1⟩),
         Op.waitIdle] ∧
      after.calls = sampleApp.calls ++ issuedBy sampleApp after ∧
      after = { sampleApp with calls := after.calls } :=
  onIdle_protocol sampleApp 1 ⟨1, true⟩ ⟨0, 0, 1, true⟩ ⟨0, 0, 3, true⟩ rfl rfl rfl

/-! ## Extent mismatch -/

theorem foldl_pushFramebuffer (images : List Nat) (app : VulkanApp) :
    images.foldl pushFramebuffer app =
      { app with
        framebuffers := app.framebuffers ++ images.map (fun image =>
          (⟨app.renderPass,
            if app.depthBuffer then [ImageView.swapchainImage image, ImageView.depthStencil]
            else [ImageView.swapchainImage image]⟩ : Framebuffer)) } := by
  induction images generalizing app with
  | nil => simp
  | cons image rest ih => simp [ih, pushFramebuffer]

theorem foldl_pushFence (turns : Nat) (app : VulkanApp) :
    (List.range turns).foldl pushFence app =
      { app with
        waitFences := app.waitFences ++
          (List.range turns).map (fun j => (⟨app.fencesCreated + j, true⟩ : Fence)),
        fencesCreated := app.fencesCreated + turns } := by
  induction turns with
  | zero => simp
  | succ turns ih =>
    rw [List.range_succ, List.foldl_append, ih]
    simp [pushFence, List.map_append, Nat.add_assoc]

/-- The steps of a successful `initialize`. -/
theorem init_ok (NDEBUG : Bool) (physicalDevice : PhysicalDevice) (app after : VulkanApp)
    (h : init NDEBUG physicalDevice app = .ok after) :
    ∃ a1 a2 a3 : VulkanApp,
      createSwapchain NDEBUG physicalDevice false
        (createLogicalDevice physicalDevice (createInstance physicalDevice app)) = .ok a1 ∧
      createRenderPass physicalDevice a1 = .ok a2 ∧
      createFramebuffer a2 = .ok a3 ∧
      after = { createSyncPrimitives (createCommandBuffers physicalDevice a3) with
                pipelineCache := true } := by
  unfold init at h
  cases h1 : createSwapchain NDEBUG physicalDevice false
      (createLogicalDevice physicalDevice (createInstance physicalDevice app)) with
  | error e => simp [h1, bind, Except.bind] at h
  | ok a1 =>
    cases h2 : createRenderPass physicalDevice a1 with
    | error e => simp [h1, h2, bind, Except.bind] at h
    | ok a2 =>
      cases h3 : createFramebuffer a2 with
      | error e => simp [h1, h2, h3, bind, Except.bind] at h
      | ok a3 =>
        simp [h1, h2, h3, bind, Except.bind, pure, Except.pure] at h
        exact ⟨a1, a2, a3, rfl, h2, h3, h.symm⟩


theorem createSwapchain_ok (NDEBUG : Bool) (physicalDevice : PhysicalDevice) (vSync : Bool)
    (app after : VulkanApp) (h : createSwapchain NDEBUG physicalDevice vSync app = .ok after) :
    ∃ swapchain : Swapchain, swapchain.images = physicalDevice.swapchainImages ∧
      after = { app with swapchain := some swapchain } := by
  unfold createSwapchain at h
  cases hf : physicalDevice.surfaceFormats with
  | nil =>
    rw [hf] at h
    dsimp only at h
    split_ifs at h
  | cons head tail =>
    rw [hf] at h
    dsimp only at h
    split_ifs at h <;> exact ⟨_, rfl, (Except.ok.inj h).symm⟩

theorem createRenderPass_ok (physicalDevice : PhysicalDevice) (app after : VulkanApp)
    (h : createRenderPass physicalDevice app = .ok after) :
    ∃ renderPass : RenderPass, after = { app with renderPass := some renderPass } := by
  unfold createRenderPass at h
  split at h
  · simp at h
  · split at h
    · simp only [Except.ok.injEq] at h
      exact ⟨_, h.symm⟩
    · simp only [Except.ok.injEq] at h
      exact ⟨_, h.symm⟩

theorem createFramebuffer_ok (app after : VulkanApp) (h : createFramebuffer app = .ok after) :
    ∃ swapchain : Swapchain, app.swapchain = some swapchain ∧
      after.framebuffers.length = app.framebuffers.length + swapchain.images ∧
      after = { app with framebuffers := after.framebuffers,
                         depthStencilView := after.depthStencilView } := by
  unfold createFramebuffer at h
  split at h
  · simp at h
  · rename_i swapchain hsc
    simp only [Except.ok.injEq] at h
    refine ⟨swapchain, hsc, ?_, ?_⟩
    · rw [← h, foldl_pushFramebuffer]
      split <;> simp
    · rw [← h, foldl_pushFramebuffer]
      split <;> simp

/-- The members that a successful `initialize` leaves behind, in terms of the members
before it and the answers of the device. -/
theorem init_members (NDEBUG : Bool) (physicalDevice : PhysicalDevice) (app after : VulkanApp)
    (h : init NDEBUG physicalDevice app = .ok after) :
    after.framebuffers.length = app.framebuffers.length + physicalDevice.swapchainImages ∧
    after.commandBuffers =
      (List.range (toUInt32 after.framebuffers.length)).map
        (fun k => (⟨0, physicalDevice.graphicsQueueFamilyIndex, k, true⟩ : CommandBuffer)) ∧
    after.cmdImageCopy =
      some ⟨0, physicalDevice.graphicsQueueFamilyIndex, toUInt32 after.framebuffers.length, true⟩ ∧
    after.graphicsPool =
      some ⟨0, physicalDevice.graphicsQueueFamilyIndex, toUInt32 after.framebuffers.length + 1⟩ ∧
    after.waitFences = app.waitFences ++
      (List.range (intLoopTurns after.commandBuffers.length)).map
        (fun j => (⟨app.fencesCreated + j, true⟩ : Fence)) ∧
    after.presentFinished = some ⟨app.semaphoresCreated⟩ ∧
    after.renderFinished = some ⟨app.semaphoresCreated + 1⟩ ∧
    after.semaphoresCreated = app.semaphoresCreated + 2 ∧
    after.cmdBufferCopy =
      (match physicalDevice.transferQueue with
       | .present family => some ⟨1, family, 0, true⟩
       | _ => app.cmdBufferCopy) ∧
    after.calls = app.calls ∧
    after.KHR_maintenance1 = physicalDevice.KHR_maintenance1 ∧
    after.AMD_negative_viewport_height = physicalDevice.AMD_negative_viewport_height := by
  obtain ⟨a1, a2, a3, h1, h2, h3, rfl⟩ := init_ok NDEBUG physicalDevice app after h
  obtain ⟨swapchain, himages, rfl⟩ := createSwapchain_ok _ _ _ _ _ h1
  obtain ⟨renderPass, rfl⟩ := createRenderPass_ok _ _ _ h2
  obtain ⟨swapchain2, hsc, hlen, h3eq⟩ := createFramebuffer_ok _ _ h3
  simp only [Option.some.injEq] at hsc
  subst hsc
  have hlen2 : a3.framebuffers.length = app.framebuffers.length + physicalDevice.swapchainImages := by
    rw [hlen, himages]; rfl
  rw [h3eq]
  cases htq : physicalDevice.transferQueue <;>
    simp [createSyncPrimitives, createCommandBuffers, foldl_pushFence, htq, hlen2,
      CommandPool.allocateCommandBuffers, CommandPool.allocateCommandBuffer,
      createLogicalDevice, createInstance]

/-! ## What the constructor of `SobelApp` leaves behind -/

theorem recordCommandBuffer_ok (index : Nat) (app after : SobelApp)
    (h : recordCommandBuffer index app = .ok after) :
    ∃ cmdBuffer framebuffer, app.commandBuffers[index]? = some cmdBuffer ∧
      app.framebuffers[index]? = some framebuffer ∧
      after = { app with
        recorded := app.recorded ++ [(cmdBuffer, [Command.blit framebuffer .offscreenColor])] } := by
  unfold recordCommandBuffer at h
  split at h
  · rename_i cmdBuffer framebuffer hc hf
    exact ⟨cmdBuffer, framebuffer, hc, hf, (Except.ok.inj h).symm⟩
  · simp at h

/-- The commands recorded into `rtCmdBuffer` for a given flag, extent and pipeline. -/
theorem recordRenderToTextureCommandBuffer_ok (app : SobelApp) (pool : CommandPool)
    (extent : VkExtent2D) (pipeline : RasterizationState)
    (hpool : app.graphicsPool = some pool) (hextent : app.fbExtent = some extent)
    (hpipeline : app.rtSolidDrawPipeline = some pipeline) :
    recordRenderToTextureCommandBuffer app = .ok
      { app with
        graphicsPool := some { pool with allocated := pool.allocated + 1 },
        rtCmdBuffer := some ⟨pool.slot, pool.queueFamilyIndex, pool.allocated, true⟩,
        rtSemaphore := some ⟨app.semaphoresCreated⟩,
        semaphoresCreated := app.semaphoresCreated + 1,
        recorded := app.recorded ++
          [(⟨pool.slot, pool.queueFamilyIndex, pool.allocated, true⟩,
            [Command.setRenderArea 0 0 extent,
             Command.beginRenderPass .offscreenColor,
             Command.setViewport 0 0 extent.width
               (viewportHeightParameter (viewportHeightArgument app.negateViewport extent.height)),
             Command.setScissor 0 0 extent,
             Command.bindDescriptorSet,
             Command.bindPipeline pipeline,
             Command.draw,
             Command.endRenderPass])] } := by
  unfold recordRenderToTextureCommandBuffer
  simp [hpool, hextent, hpipeline, CommandPool.allocateCommandBuffer]

/-- The members that a successful constructor leaves behind. -/
theorem new_members (NDEBUG : Bool) (physicalDevice : PhysicalDevice) (app : SobelApp)
    (h : SobelApp.new NDEBUG physicalDevice = .ok app) :
    app.framebuffers.length = physicalDevice.swapchainImages ∧
    app.commandBuffers =
      (List.range (toUInt32 physicalDevice.swapchainImages)).map
        (fun k => (⟨0, physicalDevice.graphicsQueueFamilyIndex, k, true⟩ : CommandBuffer)) ∧
    app.waitFences =
      (List.range (intLoopTurns (toUInt32 physicalDevice.swapchainImages))).map
        (fun j => (⟨j, true⟩ : Fence)) ∧
    app.presentFinished = some ⟨0⟩ ∧ app.renderFinished = some ⟨1⟩ ∧
    app.rtSemaphore = some ⟨2⟩ ∧
    app.rtCmdBuffer = some ⟨0, physicalDevice.graphicsQueueFamilyIndex,
      toUInt32 physicalDevice.swapchainImages + 1, true⟩ ∧
    app.calls = [] ∧
    app.negateViewport =
      (physicalDevice.KHR_maintenance1 || physicalDevice.AMD_negative_viewport_height) ∧
    app.mesh = some ⟨8, match physicalDevice.transferQueue with
                        | .present family => some ⟨1, family, 0, true⟩
                        | _ => none⟩ ∧
    app.cmdBufferCopy = (match physicalDevice.transferQueue with
                         | .present family => some ⟨1, family, 0, true⟩
                         | _ => none) ∧
    app.fbExtent = some ⟨fbSize, fbSize⟩ ∧
    app.rtSolidDrawPipeline =
      some (if app.negateViewport then fillCullBackCW else fillCullBackCCW) ∧
    app.recorded.head? = some
      (⟨0, physicalDevice.graphicsQueueFamilyIndex,
          toUInt32 physicalDevice.swapchainImages + 1, true⟩,
        [Command.setRenderArea 0 0 ⟨fbSize, fbSize⟩,
         Command.beginRenderPass .offscreenColor,
         Command.setViewport 0 0 fbSize (viewportHeightParameter (viewportHeightArgument app.negateViewport fbSize)),
         Command.setScissor 0 0 ⟨fbSize, fbSize⟩,
         Command.bindDescriptorSet,
         Command.bindPipeline (if app.negateViewport then fillCullBackCW else fillCullBackCCW),
         Command.draw,
         Command.endRenderPass]) := by
  unfold SobelApp.new at h
  cases hinit : init NDEBUG physicalDevice (VulkanApp.new 512 512 true) with
  | error e => simp [hinit, bind, Except.bind] at h
  | ok base =>
    obtain ⟨hfb, hcb, hic, hpool, hwf, hpf, hrf, hsc, hbc, hcalls, hkhr, hamd⟩ :=
      init_members NDEBUG physicalDevice _ base hinit
    simp only [hinit, bind, Except.bind] at h
    rw [recordRenderToTextureCommandBuffer_ok _ _ ⟨fbSize, fbSize⟩ _ hpool rfl rfl] at h
    simp only at h
    split at h
    · simp at h
    · rename_i a1 h1
      obtain ⟨c1, f1, -, -, rfl⟩ := recordCommandBuffer_ok _ _ _ h1
      obtain ⟨c2, f2, -, -, rfl⟩ := recordCommandBuffer_ok _ _ _ h
      simp only [VulkanApp.new, List.length_nil, Nat.zero_add, List.nil_append] at hfb hcb hwf hpf hrf hsc hbc hcalls
      rw [hfb] at hcb hic
      rw [hcb] at hwf
      simp only [List.length_map, List.length_range] at hwf
      simp [createMesh, SobelApp.createFramebuffer, setupPipelines, hfb, hcb, hwf, hpf, hrf, hsc,
        hbc, hcalls, hkhr, hamd]

/-! ## Missing transfer queue -/

/-- C8 as stated fails: on a device whose transfer queue cannot be obtained, the
constructor completes and "Transfer queue not present" is printed, but the `cmdBufferCopy`
handed to the mesh upload in `createMesh` is the null pointer, not a command buffer
allocated from the graphics queue's command pool. -/
theorem createMesh_receives_null_without_transfer :
    SobelApp.new false (sampleDevice true false .getQueueThrows 2) = .ok sampleApp ∧
    "Transfer queue not present\n" ∈ sampleApp.cout ∧
    sampleApp.cmdBufferCopy = none ∧
    sampleApp.mesh = some ⟨8, none⟩ ∧
    ¬ ∃ cmdBuffer : CommandBuffer,
        sampleApp.mesh.bind (fun mesh => mesh.cmdBuffer) = some cmdBuffer ∧ cmdBuffer.pool = 0 := by
  refine ⟨rfl, by decide, rfl, rfl, ?_⟩
  rintro ⟨cmdBuffer, hmesh, -⟩
  have hnull : sampleApp.mesh.bind (fun mesh => mesh.cmdBuffer) = none := rfl
  rw [hnull] at hmesh
  cases hmesh

/-- C8, amended: whenever obtaining a transfer queue, creating its command pool or
allocating its copy command buffer fails, `createCommandBuffers` still completes, prints
"Transfer queue not present", leaves the per-image draw command buffers and the image-copy
command buffer allocated from the graphics pool, and leaves `cmdBufferCopy` as it was: no
command buffer of the graphics pool takes its place, and the `cmdBufferCopy` that
`createMesh` hands to the mesh upload is the null pointer. -/
theorem createCommandBuffers_without_transfer (physicalDevice : PhysicalDevice)
    (app : VulkanApp)
    (hfail : ∀ family, physicalDevice.transferQueue ≠ .present family) :
    (createCommandBuffers physicalDevice app).cout = app.cout ++ ["Transfer queue not present\n"] ∧
    (createCommandBuffers physicalDevice app).commandBuffers.length =
      toUInt32 app.framebuffers.length ∧
    (∀ cmdBuffer ∈ (createCommandBuffers physicalDevice app).commandBuffers,
      cmdBuffer.pool = 0 ∧
      cmdBuffer.queueFamilyIndex = physicalDevice.graphicsQueueFamilyIndex) ∧
    (∃ cmdBuffer, (createCommandBuffers physicalDevice app).cmdImageCopy = some cmdBuffer ∧
      cmdBuffer.pool = 0 ∧
      cmdBuffer.queueFamilyIndex = physicalDevice.graphicsQueueFamilyIndex) ∧
    (∃ pool, (createCommandBuffers physicalDevice app).graphicsPool = some pool ∧
      pool.slot = 0 ∧ pool.queueFamilyIndex = physicalDevice.graphicsQueueFamilyIndex) ∧
    (createCommandBuffers physicalDevice app).cmdBufferCopy = app.cmdBufferCopy ∧
    (∀ (NDEBUG : Bool) (sobel : SobelApp), SobelApp.new NDEBUG physicalDevice = .ok sobel →
      sobel.cmdBufferCopy = none ∧ sobel.mesh = some ⟨8, none⟩) := by
  have hlast : ∀ (NDEBUG : Bool) (sobel : SobelApp),
      SobelApp.new NDEBUG physicalDevice = .ok sobel →
      sobel.cmdBufferCopy = none ∧ sobel.mesh = some ⟨8, none⟩ := by
    intro NDEBUG sobel hnew
    obtain ⟨-, -, -, -, -, -, -, -, -, hmesh, hcopy, -⟩ := new_members NDEBUG physicalDevice sobel hnew
    cases htq : physicalDevice.transferQueue with
    | present family => exact absurd htq (hfail family)
    | getQueueThrows => simp [hmesh, hcopy, htq]
    | commandPoolThrows family => simp [hmesh, hcopy, htq]
    | allocateThrows family => simp [hmesh, hcopy, htq]
  refine ⟨?_, ?_, ?_, ?_, ?_, ?_, hlast⟩ <;>
    cases htq : physicalDevice.transferQueue with
    | present family => exact absurd htq (hfail family)
    | _ =>
      simp [createCommandBuffers, htq, transferQueueNotPresent,
        CommandPool.allocateCommandBuffers, CommandPool.allocateCommandBuffer]

/-- C8, amended, on the sample device, whose transfer queue cannot be obtained. -/
theorem createCommandBuffers_without_transfer_witness :
    (createCommandBuffers (sampleDevice false false .getQueueThrows 2)
      (VulkanApp.new 512 512 true)).cout = ["Transfer queue not present\n"] ∧
    (createCommandBuffers (sampleDevice false false .getQueueThrows 2)
      (VulkanApp.new 512 512 true)).cmdBufferCopy = none :=
  ⟨(createCommandBuffers_without_transfer (sampleDevice false false .getQueueThrows 2)
      (VulkanApp.new 512 512 true) (fun _ h => TransferQueue.noConfusion h)).1,
   (createCommandBuffers_without_transfer (sampleDevice false false .getQueueThrows 2)
      (VulkanApp.new 512 512 true)
      (fun _ h => TransferQueue.noConfusion h)).2.2.2.2.2.1⟩

/-! ## Viewport flip -/

theorem toInt32_of_lt (x : Nat) (h : x < 2 ^ 31) : toInt32 x = (x : Int) := by
  unfold toInt32
  have hx : x % 2 ^ 32 = x := Nat.mod_eq_of_lt (by omega)
  rw [hx, if_pos h]

theorem toInt32_negUInt32 (x : Nat) (h : x ≤ 2 ^ 31) : toInt32 (negUInt32 x) = -(x : Int) := by
  unfold toInt32 negUInt32
  have hx : x % 2 ^ 32 = x := Nat.mod_eq_of_lt (by omega)
  rw [hx]
  rcases Nat.eq_zero_or_pos x with rfl | hpos
  · simp
  · have h1 : (2 ^ 32 - x) % 2 ^ 32 = 2 ^ 32 - x := Nat.mod_eq_of_lt (by omega)
    rw [Nat.mod_mod, h1, if_neg (by omega)]
    omega

/-- The recorded viewport height and the two rasterization states, for a flag and a
height. -/
theorem record_after_setupPipelines (app : SobelApp) (pool : CommandPool) (width height : Nat)
    (hpool : app.graphicsPool = some pool) (hextent : app.fbExtent = some ⟨width, height⟩) :
    ∃ (after : SobelApp) (rt : CommandBuffer) (commands : List Command),
      recordRenderToTextureCommandBuffer (setupPipelines app) = .ok after ∧
      after.rtCmdBuffer = some rt ∧
      after.recorded = app.recorded ++ [(rt, commands)] ∧
      after.rtSolidDrawPipeline =
        some (if app.negateViewport then fillCullBackCW else fillCullBackCCW) ∧
      commands.filterMap Command.boundPipeline =
        [if app.negateViewport then fillCullBackCW else fillCullBackCCW] ∧
      commands.filterMap Command.viewportHeight =
        [viewportHeightParameter (viewportHeightArgument app.negateViewport height)] := by
  refine ⟨_, _, _, recordRenderToTextureCommandBuffer_ok (setupPipelines app) pool
    ⟨width, height⟩ _ hpool hextent rfl, rfl, rfl, rfl, ?_, ?_⟩
  · simp [Command.boundPipeline, setupPipelines]
  · simp [Command.viewportHeight, setupPipelines]

/-- C9: the one flag `negateViewport`, true when the device reports KHR_maintenance1 or
AMD_negative_viewport_height, decides both the rasterization state of the offscreen
pipeline and the recorded viewport, for every pair of extension flags. In the constructed
application, whose framebuffer height is 256: when the flag is true the pipeline culls back
faces with clockwise winding and the recorded viewport height is -256; when it is false the
winding is counter-clockwise and the viewport height is 256. The same holds in every state
for every framebuffer height that a signed 32-bit viewport height can hold (below 2^31):
the argument is the unsigned value 2^32 - height, which is received as the negated
height. The flip is never applied to only one of the two. -/
theorem viewport_flip_consistent (KHR_maintenance1 AMD_negative_viewport_height : Bool) :
    (∀ (NDEBUG : Bool) (physicalDevice : PhysicalDevice) (app : SobelApp),
      physicalDevice.KHR_maintenance1 = KHR_maintenance1 →
      physicalDevice.AMD_negative_viewport_height = AMD_negative_viewport_height →
      SobelApp.new NDEBUG physicalDevice = .ok app →
      app.negateViewport = (KHR_maintenance1 || AMD_negative_viewport_height) ∧
      ∃ (rt : CommandBuffer) (commands : List Command),
        app.rtCmdBuffer = some rt ∧ app.recorded.head? = some (rt, commands) ∧
        ((KHR_maintenance1 || AMD_negative_viewport_height) = true →
          app.rtSolidDrawPipeline = some fillCullBackCW ∧
          commands.filterMap Command.boundPipeline = [fillCullBackCW] ∧
          commands.filterMap Command.viewportHeight = [-256]) ∧
        ((KHR_maintenance1 || AMD_negative_viewport_height) = false →
          app.rtSolidDrawPipeline = some fillCullBackCCW ∧
          commands.filterMap Command.boundPipeline = [fillCullBackCCW] ∧
          commands.filterMap Command.viewportHeight = [256])) ∧
    (∀ (height : Nat), height < 2 ^ 31 →
      ∀ (app : SobelApp) (pool : CommandPool) (width : Nat),
      app.negateViewport = (KHR_maintenance1 || AMD_negative_viewport_height) →
      app.graphicsPool = some pool → app.fbExtent = some ⟨width, height⟩ →
      ∃ (after : SobelApp) (rt : CommandBuffer) (commands : List Command),
        recordRenderToTextureCommandBuffer (setupPipelines app) = .ok after ∧
        after.rtCmdBuffer = some rt ∧
        after.recorded = app.recorded ++ [(rt, commands)] ∧
        ((KHR_maintenance1 || AMD_negative_viewport_height) = true →
          after.rtSolidDrawPipeline = some fillCullBackCW ∧
          commands.filterMap Command.boundPipeline = [fillCullBackCW] ∧
          viewportHeightArgument true height = (2 ^ 32 - height) % 2 ^ 32 ∧
          commands.filterMap Command.viewportHeight = [-(height : Int)]) ∧
        ((KHR_maintenance1 || AMD_negative_viewport_height) = false →
          after.rtSolidDrawPipeline = some fillCullBackCCW ∧
          commands.filterMap Command.boundPipeline = [fillCullBackCCW] ∧
          commands.filterMap Command.viewportHeight = [(height : Int)])) := by
  constructor
  · intro NDEBUG physicalDevice app hkhr hamd hnew
    obtain ⟨-, -, -, -, -, -, hrt, -, hneg, -, -, -, hpipe, hrec⟩ :=
      new_members NDEBUG physicalDevice app hnew
    rw [hkhr, hamd] at hneg
    refine ⟨hneg, _, _, hrt, hrec, ?_, ?_⟩
    · intro hflag
      rw [hflag] at hneg
      have h256 : viewportHeightParameter (viewportHeightArgument true fbSize) = -256 := by decide
      simp [hpipe, hneg, Command.boundPipeline, Command.viewportHeight, h256]
    · intro hflag
      rw [hflag] at hneg
      have h256 : viewportHeightParameter (viewportHeightArgument false fbSize) = 256 := by decide
      simp [hpipe, hneg, Command.boundPipeline, Command.viewportHeight, h256]
  · intro height hheight app pool width hneg hpool hextent
    obtain ⟨after, rt, commands, hok, hrt, hrec, hpipe, hbound, hview⟩ :=
      record_after_setupPipelines app pool width height hpool hextent
    refine ⟨after, rt, commands, hok, hrt, hrec, ?_, ?_⟩
    · intro hflag
      rw [hflag] at hneg
      have hx : height % 2 ^ 32 = height := Nat.mod_eq_of_lt (by omega)
      refine ⟨by simp [hpipe, hneg], by simp [hbound, hneg], ?_, ?_⟩
      · simp only [viewportHeightArgument, negUInt32, if_true, hx]
      · rw [hview, hneg]
        simp only [viewportHeightArgument, viewportHeightParameter, if_true]
        rw [toInt32_negUInt32 height (by omega)]
    · intro hflag
      rw [hflag] at hneg
      refine ⟨by simp [hpipe, hneg], by simp [hbound, hneg], ?_⟩
      rw [hview, hneg]
      simp only [viewportHeightArgument, viewportHeightParameter, Bool.false_eq_true, if_false]
      rw [toInt32_of_lt height hheight]

/-- C9 on the sample device, which reports KHR_maintenance1 only, at height 256. -/
theorem viewport_flip_consistent_witness :
    sampleApp.negateViewport = true ∧
    ∃ (after : SobelApp) (rt : CommandBuffer) (commands : List Command),
      recordRenderToTextureCommandBuffer (setupPipelines sampleApp) = .ok after ∧
      after.rtCmdBuffer = some rt ∧
      after.recorded = sampleApp.recorded ++ [(rt, commands)] ∧
      after.rtSolidDrawPipeline = some fillCullBackCW ∧
      commands.filterMap Command.boundPipeline = [fillCullBackCW] ∧
      viewportHeightArgument true 256 = (2 ^ 32 - 256) % 2 ^ 32 ∧
      commands.filterMap Command.viewportHeight = [-256] := by
  have h := viewport_flip_consistent true false
  refine ⟨(h.1 false (sampleDevice true false .getQueueThrows 2) sampleApp rfl rfl rfl).1, ?_⟩
  obtain ⟨after, rt, commands, hok, hrt, hrec, htrue, -⟩ :=
    h.2 256 (by decide) sampleApp ⟨0, 0, 4⟩ 256 rfl rfl rfl
  exact ⟨after, rt, commands, hok, hrt, hrec, (htrue rfl).1, (htrue rfl).2.1, (htrue rfl).2.2.1,
    (htrue rfl).2.2.2⟩

/-! ## Per-image resource counts -/

theorem createRenderPass_succeeds (physicalDevice : PhysicalDevice) (app : VulkanApp)
    (head : VkSurfaceFormatKHR) (tail : List VkSurfaceFormatKHR)
    (hf : physicalDevice.surfaceFormats = head :: tail) :
    ∃ renderPass : RenderPass,
      createRenderPass physicalDevice app = .ok { app with renderPass := some renderPass } := by
  unfold createRenderPass
  rw [hf]
  dsimp only
  split_ifs <;> exact ⟨_, rfl⟩

theorem createFramebuffer_succeeds (app : VulkanApp) (swapchain : Swapchain)
    (hsc : app.swapchain = some swapchain) :
    ∃ after : VulkanApp, createFramebuffer app = .ok after := by
  unfold createFramebuffer
  rw [hsc]
  exact ⟨_, rfl⟩

/-- On a supported surface with a surface format, and with matching extents or with
`NDEBUG`, `initialize` returns normally. -/
theorem init_succeeds (NDEBUG : Bool) (physicalDevice : PhysicalDevice) (app : VulkanApp)
    (hsupport : physicalDevice.surfaceSupport = true)
    (hformats : physicalDevice.surfaceFormats ≠ [])
    (hextent : NDEBUG = true ∨
      physicalDevice.surfaceCaps.currentExtent = ⟨app.width, app.height⟩) :
    ∃ after : VulkanApp, init NDEBUG physicalDevice app = .ok after := by
  cases hf : physicalDevice.surfaceFormats with
  | nil => exact absurd hf hformats
  | cons head tail =>
    have hguard : ∃ (a1 : VulkanApp) (swapchain : Swapchain),
        createSwapchain NDEBUG physicalDevice false
          (createLogicalDevice physicalDevice (createInstance physicalDevice app)) = .ok a1 ∧
        a1.swapchain = some swapchain := by
      unfold createSwapchain
      rcases hextent with h | h
      · simp [hsupport, hf, h]
      · simp [hsupport, hf, h, createLogicalDevice, createInstance]
    obtain ⟨a1, swapchain, hswap, hsc⟩ := hguard
    obtain ⟨renderPass, hpass⟩ := createRenderPass_succeeds physicalDevice a1 head tail hf
    obtain ⟨a3, hframe⟩ :=
      createFramebuffer_succeeds { a1 with renderPass := some renderPass } swapchain hsc
    exact ⟨_, by simp only [init, hswap, bind, Except.bind, hpass, hframe]; rfl⟩

theorem onPaint_keeps (app after : SobelApp) (i : Nat) (h : onPaint app i = .ok after) :
    after = { app with calls := after.calls } := by
  unfold onPaint at h
  cases hf : app.waitFences[i]? with
  | none => simp [SobelApp.issue, hf] at h
  | some fence =>
    cases hrt : app.rtCmdBuffer with
    | none => simp [SobelApp.issue, render, hf, hrt] at h
    | some rt =>
      cases hc : app.commandBuffers[i]? with
      | none => simp [SobelApp.issue, render, hf, hrt, hc] at h
      | some cmdBuffer =>
        rw [← onPaint, onPaint_ok app i fence cmdBuffer rt hf hc hrt] at h
        have hafter := Except.ok.inj h
        subst hafter
        simp [hrt]

theorem submitCmdBuffer_keeps (app after : VulkanApp) (i : Nat)
    (h : submitCmdBuffer app i = .ok after) :
    after = { app with calls := after.calls } := by
  unfold submitCmdBuffer at h
  split at h
  · rw [← Except.ok.inj h]
  · simp at h


theorem toUInt32_of_lt (x : Nat) (h : x < 2 ^ 31) : toUInt32 x = x := by
  unfold toUInt32
  exact Nat.mod_eq_of_lt (by omega)

theorem intLoopTurns_of_lt (x : Nat) (h : x < 2 ^ 31) : intLoopTurns x = x := by
  unfold intLoopTurns
  rw [toInt32_of_lt x h]
  simp

/-- C10: after a successful `initialize` that started with empty containers
(`commandBuffers` is assigned, so only the two containers that are pushed onto have to be
empty), for every number n of images returned by the swapchain that the `int` loop counter
of `createSyncPrimitives` can hold (n < 2^31), the framebuffers, the per-image draw command
buffers and the wait fences each have exactly n elements, so every image index below n is a
valid index into all three; `onPaint` and `submitCmdBuffer` leave the three containers as
they are. -/
theorem per_image_counts (NDEBUG : Bool) (physicalDevice : PhysicalDevice)
    (app after : VulkanApp)
    (hframebuffers : app.framebuffers = []) (hwaitFences : app.waitFences = [])
    (hinit : init NDEBUG physicalDevice app = .ok after)
    (himages : physicalDevice.swapchainImages < 2 ^ 31) :
    after.framebuffers.length = physicalDevice.swapchainImages ∧
    after.commandBuffers.length = physicalDevice.swapchainImages ∧
    after.waitFences.length = physicalDevice.swapchainImages ∧
    (∀ i, i < physicalDevice.swapchainImages →
      (∃ framebuffer, after.framebuffers[i]? = some framebuffer) ∧
      (∃ cmdBuffer, after.commandBuffers[i]? = some cmdBuffer) ∧
      (∃ fence, after.waitFences[i]? = some fence)) ∧
    (∀ (sobel painted : SobelApp) (i : Nat), onPaint sobel i = .ok painted →
      painted.framebuffers = sobel.framebuffers ∧
      painted.commandBuffers = sobel.commandBuffers ∧
      painted.waitFences = sobel.waitFences) ∧
    (∀ (before submitted : VulkanApp) (i : Nat), submitCmdBuffer before i = .ok submitted →
      submitted.framebuffers = before.framebuffers ∧
      submitted.commandBuffers = before.commandBuffers ∧
      submitted.waitFences = before.waitFences) := by
  obtain ⟨hfb, hcb, -, -, hwf, -⟩ := init_members _ _ _ _ hinit
  have hfb2 : after.framebuffers.length = physicalDevice.swapchainImages := by
    rw [hfb, hframebuffers]; simp
  have hcb2 : after.commandBuffers.length = physicalDevice.swapchainImages := by
    rw [hcb, hfb2, toUInt32_of_lt _ himages]; simp
  have hwf2 : after.waitFences.length = physicalDevice.swapchainImages := by
    rw [hwf, hcb2, intLoopTurns_of_lt _ himages, hwaitFences]; simp
  refine ⟨hfb2, hcb2, hwf2, ?_, ?_, ?_⟩
  · intro i hi
    refine ⟨⟨after.framebuffers[i], ?_⟩, ⟨after.commandBuffers[i], ?_⟩,
      ⟨after.waitFences[i], ?_⟩⟩
    · exact List.getElem?_eq_getElem (by omega)
    · exact List.getElem?_eq_getElem (by omega)
    · exact List.getElem?_eq_getElem (by omega)
  · intro sobel painted i hpaint
    rw [onPaint_keeps sobel painted i hpaint]
    exact ⟨rfl, rfl, rfl⟩
  · intro before submitted i hsubmit
    rw [submitCmdBuffer_keeps before submitted i hsubmit]
    exact ⟨rfl, rfl, rfl⟩

/-- C10 on the sample device with two images. -/
theorem per_image_counts_witness :
    ∃ after : VulkanApp,
      init false (sampleDevice true false .getQueueThrows 2) (VulkanApp.new 512 512 true) =
        .ok after ∧
      after.framebuffers.length = 2 ∧ after.commandBuffers.length = 2 ∧
      after.waitFences.length = 2 := by
  obtain ⟨after, hinit⟩ := init_succeeds false (sampleDevice true false .getQueueThrows 2)
    (VulkanApp.new 512 512 true) rfl (by simp [sampleDevice]) (Or.inr rfl)
  have h := per_image_counts false (sampleDevice true false .getQueueThrows 2)
    (VulkanApp.new 512 512 true) after rfl rfl hinit (by decide)
  exact ⟨after, hinit, h.1, h.2.1, h.2.2.1⟩

/-! ## Semaphore order within a frame -/

/-- The only order in which the device can carry out the four operations of a frame, when
every semaphore is unsignalled at the start, is acquisition, offscreen pass, final pass,
present. -/
theorem frame_order_forced (i : Nat) (rt cmdBuffer : CommandBuffer) (fence : Fence)
    (stage : VkFlags) (order : List Op)
    (hperm : order.Perm
      [Op.acquireNextImage (some ⟨0⟩) none i,
       Op.submit rt stage (some ⟨0⟩) (some ⟨2⟩) none,
       Op.submit cmdBuffer stage (some ⟨2⟩) (some ⟨1⟩) (some fence),
       Op.present i (some ⟨1⟩)])
    (hexec : (executeAll [] order).isSome = true) :
    order =
      [Op.acquireNextImage (some ⟨0⟩) none i,
       Op.submit rt stage (some ⟨0⟩) (some ⟨2⟩) none,
       Op.submit cmdBuffer stage (some ⟨2⟩) (some ⟨1⟩) (some fence),
       Op.present i (some ⟨1⟩)] := by
  have hlen := hperm.length_eq
  have hnodup : order.Nodup := hperm.nodup_iff.2 (by simp)
  have hsub : ∀ op ∈ order, op ∈
      [Op.acquireNextImage (some ⟨0⟩) none i,
       Op.submit rt stage (some ⟨0⟩) (some ⟨2⟩) none,
       Op.submit cmdBuffer stage (some ⟨2⟩) (some ⟨1⟩) (some fence),
       Op.present i (some ⟨1⟩)] := fun op hop => hperm.subset hop
  match order, hlen with
  | [w, x, y, z], _ =>
    have hw := hsub w (by simp)
    have hx := hsub x (by simp)
    have hy := hsub y (by simp)
    have hz := hsub z (by simp)
    simp only [List.mem_cons, List.mem_singleton, List.not_mem_nil, or_false] at hw hx hy hz
    simp only [List.nodup_cons, List.mem_cons, List.mem_singleton, List.not_mem_nil, not_or,
      or_false, List.nodup_nil, and_true, not_false_eq_true] at hnodup
    rcases hw with rfl | rfl | rfl | rfl
    · rcases hx with rfl | rfl | rfl | rfl
      · simp at hnodup
      · rcases hy with rfl | rfl | rfl | rfl
        · simp at hnodup
        · simp at hnodup
        · rcases hz with rfl | rfl | rfl | rfl
          · simp at hnodup
          · simp at hnodup
          · simp at hnodup
          · rfl
        · simp [executeAll, execute, afterSignal, Op.waitsOn, Op.signals] at hexec
      · simp [executeAll, execute, afterSignal, Op.waitsOn, Op.signals] at hexec
      · simp [executeAll, execute, afterSignal, Op.waitsOn, Op.signals] at hexec
    · simp [executeAll, execute, afterSignal, Op.waitsOn, Op.signals] at hexec
    · simp [executeAll, execute, afterSignal, Op.waitsOn, Op.signals] at hexec
    · simp [executeAll, execute, afterSignal, Op.waitsOn, Op.signals] at hexec


theorem onPaint_inv (app after : SobelApp) (i : Nat) (h : onPaint app i = .ok after) :
    ∃ (fence : Fence) (cmdBuffer rt : CommandBuffer),
      app.waitFences[i]? = some fence ∧ app.commandBuffers[i]? = some cmdBuffer ∧
      app.rtCmdBuffer = some rt := by
  unfold onPaint at h
  cases hf : app.waitFences[i]? with
  | none => simp [SobelApp.issue, hf] at h
  | some fence =>
    cases hrt : app.rtCmdBuffer with
    | none => simp [SobelApp.issue, render, hf, hrt] at h
    | some rt =>
      cases hc : app.commandBuffers[i]? with
      | none => simp [SobelApp.issue, render, hf, hrt, hc] at h
      | some cmdBuffer => exact ⟨fence, cmdBuffer, rt, rfl, rfl, rfl⟩

/-- Frames leave the semaphores, the containers and `rtCmdBuffer` as they are, and their
calls are the calls of a list of frames. -/
theorem frames_keeps (acquired : List Nat) (app after : SobelApp) (rt : CommandBuffer)
    (hrt : app.rtCmdBuffer = some rt) (h : frames app acquired = .ok after) :
    after.presentFinished = app.presentFinished ∧ after.rtSemaphore = app.rtSemaphore ∧
    after.renderFinished = app.renderFinished ∧ after.rtCmdBuffer = app.rtCmdBuffer ∧
    after.waitFences = app.waitFences ∧ after.commandBuffers = app.commandBuffers ∧
    ∃ program : List Frame,
      after.calls = app.calls ++
        (program.flatMap
          (frameCalls app.presentFinished app.rtSemaphore app.renderFinished rt)) := by
  induction acquired generalizing app with
  | nil =>
    simp only [frames, Except.ok.injEq] at h
    subst h
    exact ⟨rfl, rfl, rfl, rfl, rfl, rfl, [], by simp⟩
  | cons i rest ih =>
    simp only [frames, onIdle] at h
    cases hpaint : onPaint app i with
    | error failure => simp [hpaint] at h
    | ok painted =>
      simp only [hpaint] at h
      obtain ⟨fence, cmdBuffer, rt2, hfence, hcmd, hrt2⟩ := onPaint_inv app painted i hpaint
      have hsame : rt2 = rt := Option.some.inj (hrt2.symm.trans hrt)
      subst hsame
      rw [onPaint_ok app i fence cmdBuffer rt2 hfence hcmd hrt] at hpaint
      have hpainted := (Except.ok.inj hpaint).symm
      have hrt3 : painted.rtCmdBuffer = some rt2 := by rw [hpainted]; exact hrt
      obtain ⟨h1, h2, h3, h4, h5, h6, program, hcalls⟩ := ih painted hrt3 h
      rw [hpainted] at h1 h2 h3 h4 h5 h6 hcalls
      refine ⟨h1, h2, h3, h4, h5, h6, ⟨i, cmdBuffer, fence⟩ :: program, ?_⟩
      rw [hcalls]
      simp [frameCalls]

theorem executeAll_append (first second : List Op) (signalled : List Semaphore) :
    executeAll signalled (first ++ second) =
      match executeAll signalled first with
      | none => none
      | some signalled => executeAll signalled second := by
  induction first generalizing signalled with
  | nil => rfl
  | cons op first ih =>
    simp only [List.cons_append, executeAll]
    cases execute signalled op with
    | none => rfl
    | some signalled => exact ih signalled

/-- Carried out in program order, the device operations of any number of frames leave
every semaphore unsignalled. -/
theorem executeAll_frames (rt : CommandBuffer) (program : List Frame) :
    executeAll []
      ((program.flatMap (frameCalls (some ⟨0⟩) (some ⟨2⟩) (some ⟨1⟩) rt)).filter
        Op.isQueueOp) = some [] := by
  induction program with
  | nil => rfl
  | cons frame rest ih =>
    rw [List.flatMap_cons, List.filter_append, executeAll_append]
    have hframe : executeAll []
        ((frameCalls (some ⟨0⟩) (some ⟨2⟩) (some ⟨1⟩) rt frame).filter Op.isQueueOp) =
        some [] := by
      simp [frameCalls, Op.isQueueOp, executeAll, execute, afterSignal, Op.waitsOn, Op.signals]
    rw [hframe]
    exact ih

/-- C5: in every frame of a run of the constructed application (after any number of
earlier frames), the calls of one `onPaint` give each of the three semaphores exactly one
signaller and exactly one waiter, issued signaller first: `presentFinished` is signalled by
the acquisition and waited on by the submission of `rtCmdBuffer`; `rtSemaphore` is signalled
by that submission and waited on by the submission of `commandBuffers[i]`; `renderFinished`
is signalled by that submission and waited on by present. The earlier frames, carried out in
program order, have left every semaphore unsignalled; from there, under binary semaphore
semantics, the device can carry out the operations of the frame in one order only,
acquisition, offscreen pass, final pass, present, and in that order every semaphore is
unsignalled again at the end. -/
theorem semaphore_order (NDEBUG : Bool) (physicalDevice : PhysicalDevice)
    (constructed : SobelApp)
    (hnew : SobelApp.new NDEBUG physicalDevice = .ok constructed)
    (earlier : List Nat) (app : SobelApp)
    (hearlier : frames constructed earlier = .ok app)
    (i : Nat) (fence : Fence) (cmdBuffer : CommandBuffer)
    (hfence : app.waitFences[i]? = some fence)
    (hcmd : app.commandBuffers[i]? = some cmdBuffer) :
    ∃ (after : SobelApp) (rt : CommandBuffer)
      (presentFinished rtSemaphore renderFinished : Semaphore),
      onPaint app i = .ok after ∧
      app.rtCmdBuffer = some rt ∧ app.presentFinished = some presentFinished ∧
      app.rtSemaphore = some rtSemaphore ∧ app.renderFinished = some renderFinished ∧
      presentFinished ≠ rtSemaphore ∧ rtSemaphore ≠ renderFinished ∧
      presentFinished ≠ renderFinished ∧
      (issuedBy app after).filter Op.isQueueOp =
        [Op.acquireNextImage (some presentFinished) none i,
         Op.submit rt VK_PIPELINE_STAGE_COLOR_ATTACHMENT_OUTPUT_BIT
           (some presentFinished) (some rtSemaphore) none,
         Op.submit cmdBuffer VK_PIPELINE_STAGE_COLOR_ATTACHMENT_OUTPUT_BIT
           (some rtSemaphore) (some renderFinished) (some fence),
         Op.present i (some renderFinished)] ∧
      (issuedBy app after).filter (fun op => op.signals == some presentFinished) =
        [Op.acquireNextImage (some presentFinished) none i] ∧
      (issuedBy app after).filter (fun op => op.waitsOn == some presentFinished) =
        [Op.submit rt VK_PIPELINE_STAGE_COLOR_ATTACHMENT_OUTPUT_BIT
           (some presentFinished) (some rtSemaphore) none] ∧
      (issuedBy app after).filter (fun op => op.signals == some rtSemaphore) =
        [Op.submit rt VK_PIPELINE_STAGE_COLOR_ATTACHMENT_OUTPUT_BIT
           (some presentFinished) (some rtSemaphore) none] ∧
      (issuedBy app after).filter (fun op => op.waitsOn == some rtSemaphore) =
        [Op.submit cmdBuffer VK_PIPELINE_STAGE_COLOR_ATTACHMENT_OUTPUT_BIT
           (some rtSemaphore) (some renderFinished) (some fence)] ∧
      (issuedBy app after).filter (fun op => op.signals == some renderFinished) =
        [Op.submit cmdBuffer VK_PIPELINE_STAGE_COLOR_ATTACHMENT_OUTPUT_BIT
           (some rtSemaphore) (some renderFinished) (some fence)] ∧
      (issuedBy app after).filter (fun op => op.waitsOn == some renderFinished) =
        [Op.present i (some renderFinished)] ∧
      executeAll [] (app.calls.filter Op.isQueueOp) = some [] ∧
      (∀ order : List Op,
        order.Perm ((issuedBy app after).filter Op.isQueueOp) →
        (executeAll [] order).isSome = true →
        order = (issuedBy app after).filter Op.isQueueOp) ∧
      executeAll [] ((issuedBy app after).filter Op.isQueueOp) = some [] ∧
      executeAll [] (after.calls.filter Op.isQueueOp) = some [] := by
  obtain ⟨-, -, -, hpf0, hrf0, hrts0, hrt0, hcalls0, -⟩ :=
    new_members NDEBUG physicalDevice constructed hnew
  obtain ⟨kpf, krts, krf, krt, -, -, program, hcalls⟩ :=
    frames_keeps earlier constructed app _ hrt0 hearlier
  have hpf : app.presentFinished = some ⟨0⟩ := kpf.trans hpf0
  have hrts : app.rtSemaphore = some ⟨2⟩ := krts.trans hrts0
  have hrf : app.renderFinished = some ⟨1⟩ := krf.trans hrf0
  have hrt := krt.trans hrt0
  rw [hcalls0, hpf0, hrts0, hrf0, List.nil_append] at hcalls
  have hbefore : executeAll [] (app.calls.filter Op.isQueueOp) = some [] := by
    rw [hcalls]
    exact executeAll_frames _ program
  have hpaint := onPaint_ok app i fence cmdBuffer _ hfence hcmd hrt
  have hqueue : (issuedBy app
      { app with calls := app.calls ++
          [Op.acquireNextImage app.presentFinished none i,
           Op.fenceWait fence,
           Op.fenceReset fence,
           Op.mapUniformBuffer,
           Op.submit ⟨0, physicalDevice.graphicsQueueFamilyIndex,
               toUInt32 physicalDevice.swapchainImages + 1, true⟩
             VK_PIPELINE_STAGE_COLOR_ATTACHMENT_OUTPUT_BIT
             app.presentFinished app.rtSemaphore none,
           Op.submit cmdBuffer VK_PIPELINE_STAGE_COLOR_ATTACHMENT_OUTPUT_BIT
             app.rtSemaphore app.renderFinished (some fence),
           Op.present i app.renderFinished,
           Op.waitIdle] }).filter Op.isQueueOp =
      [Op.acquireNextImage (some ⟨0⟩) none i,
       Op.submit ⟨0, physicalDevice.graphicsQueueFamilyIndex,
           toUInt32 physicalDevice.swapchainImages + 1, true⟩
         VK_PIPELINE_STAGE_COLOR_ATTACHMENT_OUTPUT_BIT (some ⟨0⟩) (some ⟨2⟩) none,
       Op.submit cmdBuffer VK_PIPELINE_STAGE_COLOR_ATTACHMENT_OUTPUT_BIT
         (some ⟨2⟩) (some ⟨1⟩) (some fence),
       Op.present i (some ⟨1⟩)] := by
    simp [issuedBy, Op.isQueueOp, hpf, hrf, hrts]
  refine ⟨_, _, ⟨0⟩, ⟨2⟩, ⟨1⟩, hpaint, hrt, hpf, hrts, hrf, by decide, by decide, by decide,
    hqueue, ?_, ?_, ?_, ?_, ?_, ?_, hbefore, ?_, ?_, ?_⟩
  · simp [issuedBy, Op.signals, hpf, hrf, hrts]
  · simp [issuedBy, Op.waitsOn, hpf, hrf, hrts]
  · simp [issuedBy, Op.signals, hpf, hrf, hrts]
  · simp [issuedBy, Op.waitsOn, hpf, hrf, hrts]
  · simp [issuedBy, Op.signals, hpf, hrf, hrts]
  · simp [issuedBy, Op.waitsOn, hpf, hrf, hrts]
  · intro order hperm hexec
    rw [hqueue] at hperm ⊢
    exact frame_order_forced i _ cmdBuffer fence _ order hperm hexec
  · rw [hqueue]
    simp [executeAll, execute, afterSignal, Op.waitsOn, Op.signals]
  · simp only [List.filter_append, executeAll_append, hbefore]
    simp [hpf, hrf, hrts, Op.isQueueOp, executeAll, execute, afterSignal, Op.waitsOn,
      Op.signals]

/-- C5 on the sample application in its third frame, after frames for the images 1 and 0,
and in its first frame. -/
theorem semaphore_order_witness :
    (∃ after : SobelApp, onPaint paintedApp 1 = .ok after ∧
      executeAll [] (paintedApp.calls.filter Op.isQueueOp) = some [] ∧
      (∀ order : List Op,
        order.Perm ((issuedBy paintedApp after).filter Op.isQueueOp) →
        (executeAll [] order).isSome = true →
        order = (issuedBy paintedApp after).filter Op.isQueueOp) ∧
      executeAll [] ((issuedBy paintedApp after).filter Op.isQueueOp) = some []) ∧
    (∃ after : SobelApp, onPaint sampleApp 0 = .ok after ∧
      (∀ order : List Op,
        order.Perm ((issuedBy sampleApp after).filter Op.isQueueOp) →
        (executeAll [] order).isSome = true →
        order = (issuedBy sampleApp after).filter Op.isQueueOp)) := by
  constructor
  · obtain ⟨after, rt, s1, s2, s3, hpaint, -, -, -, -, -, -, -, -, -, -, -, -, -, -, hbefore,
        hforced, hend, -⟩ :=
      semaphore_order false (sampleDevice true false .getQueueThrows 2) sampleApp rfl [1, 0]
        paintedApp rfl 1 ⟨1, true⟩ ⟨0, 0, 1, true⟩ rfl rfl
    exact ⟨after, hpaint, hbefore, hforced, hend⟩
  · obtain ⟨after, rt, s1, s2, s3, hpaint, -, -, -, -, -, -, -, -, -, -, -, -, -, -, -,
        hforced, -, -⟩ :=
      semaphore_order false (sampleDevice true false .getQueueThrows 2) sampleApp rfl []
        sampleApp rfl 0 ⟨0, true⟩ ⟨0, 0, 0, true⟩ rfl rfl
    exact ⟨after, hpaint, hforced⟩

/-! ## Fence discipline -/

theorem reachable_start (presentFinished rtSemaphore renderFinished : Option Semaphore)
    (rt : CommandBuffer) (program : List Frame)
    (hrt : ∀ frame ∈ program, frame.cmdBuffer ≠ rt) :
    Reachable presentFinished rtSemaphore renderFinished rt ⟨[], []⟩
      (program.flatMap (frameCalls presentFinished rtSemaphore renderFinished rt)) := by
  cases program with
  | nil => exact Or.inl ⟨rfl, rfl⟩
  | cons frame rest =>
    refine Or.inr ⟨0, frame, rest, by decide, hrt frame (by simp), ?_, ?_, ?_⟩
    · intro later hlater
      exact hrt later (by simp [hlater])
    · simp
    · simp [frameStates]

/-- One step of a schedule from a reachable state keeps the discipline and leads to a
reachable state. -/
theorem reachable_step (presentFinished rtSemaphore renderFinished : Option Semaphore)
    (rt : CommandBuffer) (gpu : Gpu) (ops : List Op) (event : Event)
    (h : Reachable presentFinished rtSemaphore renderFinished rt gpu ops) :
    (step gpu ops event).disciplined = true ∧
    ∀ gpu2 ops2, step gpu ops event = .running gpu2 ops2 →
      Reachable presentFinished rtSemaphore renderFinished rt gpu2 ops2 := by
  rcases h with ⟨rfl, rfl⟩ | ⟨pc, frame, rest, hpc, hne, hrest, rfl, hmem⟩
  · cases event <;> simp [step, complete, Outcome.disciplined]
  · have hnext : ∀ gpu2, gpu2 = (⟨[], []⟩ : Gpu) →
        Reachable presentFinished rtSemaphore renderFinished rt gpu2
          (rest.flatMap (frameCalls presentFinished rtSemaphore renderFinished rt)) := by
      rintro gpu2 rfl
      exact reachable_start _ _ _ rt rest hrest
    have hne2 : rt ≠ frame.cmdBuffer := fun h => hne h.symm
    interval_cases pc
    · -- the host has performed 0 calls of the frame
      simp only [frameStates, List.mem_singleton] at hmem
      subst hmem
      cases event with
      | host =>
        refine ⟨by simp [step, frameCalls, hostStep, Outcome.disciplined, Gpu.inFlight,
          Gpu.fenceInFlight], ?_⟩
        intro gpu2 ops2 hstep
        simp [step, frameCalls, hostStep, Gpu.inFlight, Gpu.fenceInFlight] at hstep
        obtain ⟨rfl, rfl⟩ := hstep
        exact Or.inr ⟨1, frame, rest, by decide, hne, hrest, by simp [frameCalls], by simp [frameStates]⟩
      | complete k =>
        refine ⟨by simp [step, complete, Outcome.disciplined], ?_⟩
        intro gpu2 ops2 hstep
        simp [step, complete] at hstep
    · -- the host has performed 1 calls of the frame
      simp only [frameStates, List.mem_singleton] at hmem
      subst hmem
      cases event with
      | host =>
        refine ⟨by simp [step, frameCalls, hostStep, Outcome.disciplined, Gpu.inFlight,
          Gpu.fenceInFlight], ?_⟩
        intro gpu2 ops2 hstep
        simp [step, frameCalls, hostStep, Gpu.inFlight, Gpu.fenceInFlight] at hstep
        obtain ⟨rfl, rfl⟩ := hstep
        exact Or.inr ⟨2, frame, rest, by decide, hne, hrest, by simp [frameCalls], by simp [frameStates]⟩
      | complete k =>
        refine ⟨by simp [step, complete, Outcome.disciplined], ?_⟩
        intro gpu2 ops2 hstep
        simp [step, complete] at hstep
    · -- the host has performed 2 calls of the frame
      simp only [frameStates, List.mem_singleton] at hmem
      subst hmem
      cases event with
      | host =>
        refine ⟨by simp [step, frameCalls, hostStep, Outcome.disciplined, Gpu.inFlight,
          Gpu.fenceInFlight], ?_⟩
        intro gpu2 ops2 hstep
        simp [step, frameCalls, hostStep, Gpu.inFlight, Gpu.fenceInFlight] at hstep
        obtain ⟨rfl, rfl⟩ := hstep
        exact Or.inr ⟨3, frame, rest, by decide, hne, hrest, by simp [frameCalls], by simp [frameStates]⟩
      | complete k =>
        refine ⟨by simp [step, complete, Outcome.disciplined], ?_⟩
        intro gpu2 ops2 hstep
        simp [step, complete] at hstep
    · -- the host has performed 3 calls of the frame
      simp only [frameStates, List.mem_singleton] at hmem
      subst hmem
      cases event with
      | host =>
        refine ⟨by simp [step, frameCalls, hostStep, Outcome.disciplined, Gpu.inFlight,
          Gpu.fenceInFlight], ?_⟩
        intro gpu2 ops2 hstep
        simp [step, frameCalls, hostStep, Gpu.inFlight, Gpu.fenceInFlight] at hstep
        obtain ⟨rfl, rfl⟩ := hstep
        exact Or.inr ⟨4, frame, rest, by decide, hne, hrest, by simp [frameCalls], by simp [frameStates]⟩
      | complete k =>
        refine ⟨by simp [step, complete, Outcome.disciplined], ?_⟩
        intro gpu2 ops2 hstep
        simp [step, complete] at hstep
    · -- the host has performed 4 calls of the frame
      simp only [frameStates, List.mem_singleton] at hmem
      subst hmem
      cases event with
      | host =>
        refine ⟨by simp [step, frameCalls, hostStep, Outcome.disciplined, Gpu.inFlight,
          Gpu.fenceInFlight], ?_⟩
        intro gpu2 ops2 hstep
        simp [step, frameCalls, hostStep, Gpu.inFlight, Gpu.fenceInFlight] at hstep
        obtain ⟨rfl, rfl⟩ := hstep
        exact Or.inr ⟨5, frame, rest, by decide, hne, hrest, by simp [frameCalls], by simp [frameStates]⟩
      | complete k =>
        refine ⟨by simp [step, complete, Outcome.disciplined], ?_⟩
        intro gpu2 ops2 hstep
        simp [step, complete] at hstep
    · -- the host has performed 5 calls of the frame
      simp only [frameStates, List.mem_cons, List.mem_singleton, List.not_mem_nil, or_false] at hmem
      cases event with
      | host =>
        refine ⟨?_, ?_⟩
        · rcases hmem with rfl | rfl <;>
            simp [step, frameCalls, hostStep, Outcome.disciplined, Gpu.inFlight,
              Gpu.fenceInFlight, hne, hne2]
        · intro gpu2 ops2 hstep
          rcases hmem with rfl | rfl <;>
            simp [step, frameCalls, hostStep, Gpu.inFlight, Gpu.fenceInFlight, hne, hne2]
              at hstep <;>
            obtain ⟨rfl, rfl⟩ := hstep <;>
            exact Or.inr ⟨6, frame, rest, by decide, hne, hrest, by simp [frameCalls], by simp [frameStates]⟩
      | complete k =>
        refine ⟨?_, ?_⟩
        · rcases hmem with rfl | rfl <;>
            rcases k with _ | _ | k <;>
            simp [step, complete, Outcome.disciplined]
        · intro gpu2 ops2 hstep
          rcases hmem with rfl | rfl <;>
            rcases k with _ | _ | k <;>
            simp [step, complete] at hstep
          obtain ⟨rfl, rfl⟩ := hstep
          exact Or.inr ⟨5, frame, rest, by decide, hne, hrest, rfl, by simp [frameStates]⟩
    · -- the host has performed 6 calls of the frame
      simp only [frameStates, List.mem_cons, List.mem_singleton, List.not_mem_nil, or_false] at hmem
      cases event with
      | host =>
        refine ⟨?_, ?_⟩
        · rcases hmem with rfl | rfl | rfl | rfl <;>
            simp [step, frameCalls, hostStep, Outcome.disciplined, Gpu.inFlight,
              Gpu.fenceInFlight, hne, hne2]
        · intro gpu2 ops2 hstep
          rcases hmem with rfl | rfl | rfl | rfl <;>
            simp [step, frameCalls, hostStep, Gpu.inFlight, Gpu.fenceInFlight, hne, hne2]
              at hstep <;>
            obtain ⟨rfl, rfl⟩ := hstep <;>
            exact Or.inr ⟨7, frame, rest, by decide, hne, hrest, by simp [frameCalls], by simp [frameStates]⟩
      | complete k =>
        refine ⟨?_, ?_⟩
        · rcases hmem with rfl | rfl | rfl | rfl <;>
            rcases k with _ | _ | k <;>
            simp [step, complete, Outcome.disciplined]
        · intro gpu2 ops2 hstep
          rcases hmem with rfl | rfl | rfl | rfl <;>
            rcases k with _ | _ | k <;>
            simp [step, complete] at hstep <;>
            obtain ⟨rfl, rfl⟩ := hstep <;>
            exact Or.inr ⟨6, frame, rest, by decide, hne, hrest, rfl, by simp [frameStates]⟩
    · -- the host has performed 7 calls of the frame
      simp only [frameStates, List.mem_cons, List.mem_singleton, List.not_mem_nil, or_false] at hmem
      cases event with
      | host =>
        refine ⟨?_, ?_⟩
        · rcases hmem with rfl | rfl | rfl | rfl <;>
            simp [step, frameCalls, hostStep, Outcome.disciplined, Gpu.inFlight,
              Gpu.fenceInFlight, hne, hne2]
        · intro gpu2 ops2 hstep
          rcases hmem with rfl | rfl | rfl | rfl <;>
            simp [step, frameCalls, hostStep, Gpu.inFlight, Gpu.fenceInFlight, hne, hne2]
              at hstep
          obtain ⟨rfl, rfl⟩ := hstep
          exact hnext _ rfl
      | complete k =>
        refine ⟨?_, ?_⟩
        · rcases hmem with rfl | rfl | rfl | rfl <;>
            rcases k with _ | _ | k <;>
            simp [step, complete, Outcome.disciplined]
        · intro gpu2 ops2 hstep
          rcases hmem with rfl | rfl | rfl | rfl <;>
            rcases k with _ | _ | k <;>
            simp [step, complete] at hstep <;>
            obtain ⟨rfl, rfl⟩ := hstep <;>
            exact Or.inr ⟨7, frame, rest, by decide, hne, hrest, rfl, by simp [frameStates]⟩

/-- Every schedule keeps the discipline from a reachable state on. -/
theorem run_disciplined (presentFinished rtSemaphore renderFinished : Option Semaphore)
    (rt : CommandBuffer) (schedule : List Event) (gpu : Gpu) (ops : List Op)
    (h : Reachable presentFinished rtSemaphore renderFinished rt gpu ops) :
    (run gpu ops schedule).disciplined = true := by
  induction schedule generalizing gpu ops with
  | nil => simp [run, Outcome.disciplined]
  | cons event schedule ih =>
    obtain ⟨hkeeps, hnext⟩ := reachable_step _ _ _ rt gpu ops event h
    unfold run
    cases hstep : step gpu ops event with
    | running gpu2 ops2 => exact ih gpu2 ops2 (hnext gpu2 ops2 hstep)
    | blocked op => rw [hstep] at hkeeps; exact hkeeps
    | resubmitted cmdBuffer => rw [hstep] at hkeeps; exact hkeeps
    | fenceInUse fence => rw [hstep] at hkeeps; exact hkeeps
    | noSuchEvent => rfl

/-- The lazy schedule carries the host through every frame, ending with every fence
signaled and nothing in flight. -/
theorem run_lazySchedule (presentFinished rtSemaphore renderFinished : Option Semaphore)
    (rt : CommandBuffer) (program : List Frame)
    (hrt : ∀ frame ∈ program, frame.cmdBuffer ≠ rt) :
    run ⟨[], []⟩ (program.flatMap (frameCalls presentFinished rtSemaphore renderFinished rt))
      (lazySchedule program.length) = .running ⟨[], []⟩ [] := by
  induction program with
  | nil => simp [lazySchedule, run]
  | cons frame rest ih =>
    have hne : frame.cmdBuffer ≠ rt := hrt frame (by simp)
    have hne2 : rt ≠ frame.cmdBuffer := fun h => hne h.symm
    have hrest := ih (fun later hlater => hrt later (by simp [hlater]))
    simp only [List.flatMap_cons, List.length_cons, lazySchedule, frameCalls, List.cons_append,
      List.nil_append, run, step, hostStep]
    simp [complete, Gpu.inFlight, Gpu.fenceInFlight, hne, hne2, run, step, hostStep]
    simpa [frameCalls] using hrest

/-- The calls of a run of frames whose image indices are valid. -/
theorem frames_ok (program : List Frame) (app : SobelApp) (rt : CommandBuffer)
    (hrt : app.rtCmdBuffer = some rt)
    (hvalid : ∀ frame ∈ program,
      app.waitFences[frame.index]? = some frame.fence ∧
      app.commandBuffers[frame.index]? = some frame.cmdBuffer) :
    frames app (program.map (fun frame => frame.index)) = .ok
      { app with calls := app.calls ++
          (program.flatMap
            (frameCalls app.presentFinished app.rtSemaphore app.renderFinished rt)) } := by
  induction program generalizing app with
  | nil => simp [frames]
  | cons frame rest ih =>
    obtain ⟨hfence, hcmd⟩ := hvalid frame (by simp)
    simp only [List.map_cons, frames, onIdle]
    rw [onPaint_ok app frame.index frame.fence frame.cmdBuffer rt hfence hcmd hrt]
    have hrest := ih
      { app with calls := app.calls ++
          frameCalls app.presentFinished app.rtSemaphore app.renderFinished rt frame }
      hrt (fun later hlater => hvalid later (by simp [hlater]))
    simpa [frameCalls] using hrest

theorem images_lt_of_turns (n : Nat) (h : intLoopTurns (toUInt32 n) = n) : n < 2 ^ 31 := by
  unfold intLoopTurns toInt32 toUInt32 at h
  simp only [Nat.mod_mod] at h
  split at h
  · rename_i hlt
    have h2 : n % 2 ^ 32 = n := by
      have := Int.toNat_natCast (n % 2 ^ 32)
      omega
    omega
  · have h0 : n = 0 := by
      have : ((n % 2 ^ 32 : Nat) : Int) - 2 ^ 32 < 0 := by
        have := Nat.mod_lt n (show 2 ^ 32 > 0 by decide)
        omega
      have hz : (((n % 2 ^ 32 : Nat) : Int) - 2 ^ 32).toNat = 0 := Int.toNat_of_nonpos (by omega)
      omega
    subst h0
    decide


/-- C4: on the constructed application with one fence per swapchain image, for every
finite sequence of acquired image indices below the image count, the frames run, and their
calls are, frame by frame: wait on `waitFences[i]`, reset it, then submit `rtCmdBuffer`
without a fence and `commandBuffers[i]` with the fence `waitFences[i]`. Every fence is
created signaled and nothing is in flight at the start. Along every schedule of host calls
and device completions no command buffer is submitted while an earlier submission of it is
in flight, every fence handed to a submission has been reset and is free, and the host
never has to wait at a fence, the first wait on each fence included. The calls can be run
to their end. -/
theorem fence_discipline (NDEBUG : Bool) (physicalDevice : PhysicalDevice) (app : SobelApp)
    (hnew : SobelApp.new NDEBUG physicalDevice = .ok app)
    (hfences : app.waitFences.length = physicalDevice.swapchainImages)
    (acquired : List Nat)
    (hacquired : ∀ i ∈ acquired, i < physicalDevice.swapchainImages) :
    ∃ (after : SobelApp) (rt : CommandBuffer),
      frames app acquired = .ok after ∧
      app.rtCmdBuffer = some rt ∧
      (∀ fence ∈ app.waitFences, fence.signaled = true) ∧
      Gpu.start app.waitFences = ⟨[], []⟩ ∧
      (∀ i, i < physicalDevice.swapchainImages →
        app.waitFences[i]? = some ⟨i, true⟩ ∧
        app.commandBuffers[i]? =
          some ⟨0, physicalDevice.graphicsQueueFamilyIndex, i, true⟩ ∧
        rt ≠ ⟨0, physicalDevice.graphicsQueueFamilyIndex, i, true⟩) ∧
      after.calls = acquired.flatMap (fun i =>
        [Op.acquireNextImage app.presentFinished none i,
         Op.fenceWait ⟨i, true⟩,
         Op.fenceReset ⟨i, true⟩,
         Op.mapUniformBuffer,
         Op.submit rt VK_PIPELINE_STAGE_COLOR_ATTACHMENT_OUTPUT_BIT
           app.presentFinished app.rtSemaphore none,
         Op.submit ⟨0, physicalDevice.graphicsQueueFamilyIndex, i, true⟩
           VK_PIPELINE_STAGE_COLOR_ATTACHMENT_OUTPUT_BIT
           app.rtSemaphore app.renderFinished (some ⟨i, true⟩),
         Op.present i app.renderFinished,
         Op.waitIdle]) ∧
      (∀ schedule : List Event,
        (run (Gpu.start app.waitFences) after.calls schedule).disciplined = true) ∧
      run (Gpu.start app.waitFences) after.calls (lazySchedule acquired.length) =
        .running ⟨[], []⟩ [] := by
  obtain ⟨-, hcb, hwf, -, -, -, hrt, hcalls, -⟩ := new_members NDEBUG physicalDevice app hnew
  have hturns : intLoopTurns (toUInt32 physicalDevice.swapchainImages) =
      physicalDevice.swapchainImages := by
    rw [hwf] at hfences
    simpa using hfences
  have hlt := images_lt_of_turns _ hturns
  rw [toUInt32_of_lt _ hlt] at hcb hrt
  rw [hturns] at hwf
  have hindex : ∀ i, i < physicalDevice.swapchainImages →
      app.waitFences[i]? = some ⟨i, true⟩ ∧
      app.commandBuffers[i]? = some ⟨0, physicalDevice.graphicsQueueFamilyIndex, i, true⟩ ∧
      (⟨0, physicalDevice.graphicsQueueFamilyIndex, physicalDevice.swapchainImages + 1, true⟩ :
        CommandBuffer) ≠ ⟨0, physicalDevice.graphicsQueueFamilyIndex, i, true⟩ := by
    intro i hi
    refine ⟨?_, ?_, ?_⟩
    · rw [hwf]; simp [hi]
    · rw [hcb]; simp [hi]
    · intro heq
      have := congrArg CommandBuffer.serial heq
      simp at this
      omega
  have hsignaled : ∀ fence ∈ app.waitFences, fence.signaled = true := by
    intro fence hmem
    rw [hwf] at hmem
    obtain ⟨j, -, rfl⟩ := List.mem_map.1 hmem
    rfl
  have hstart : Gpu.start app.waitFences = ⟨[], []⟩ := by
    unfold Gpu.start
    congr
    apply List.filter_eq_nil_iff.2
    intro fence hmem
    simp [hsignaled fence hmem]
  have hvalid : ∀ frame ∈ acquired.map
      (fun i => (⟨i, ⟨0, physicalDevice.graphicsQueueFamilyIndex, i, true⟩, ⟨i, true⟩⟩ : Frame)),
      app.waitFences[frame.index]? = some frame.fence ∧
      app.commandBuffers[frame.index]? = some frame.cmdBuffer := by
    intro frame hmem
    obtain ⟨i, hi, rfl⟩ := List.mem_map.1 hmem
    exact ⟨(hindex i (hacquired i hi)).1, (hindex i (hacquired i hi)).2.1⟩
  have hdistinct : ∀ frame ∈ acquired.map
      (fun i => (⟨i, ⟨0, physicalDevice.graphicsQueueFamilyIndex, i, true⟩, ⟨i, true⟩⟩ : Frame)),
      frame.cmdBuffer ≠
        ⟨0, physicalDevice.graphicsQueueFamilyIndex, physicalDevice.swapchainImages + 1, true⟩ := by
    intro frame hmem
    obtain ⟨i, hi, rfl⟩ := List.mem_map.1 hmem
    exact fun h => (hindex i (hacquired i hi)).2.2 h.symm
  have hframes := frames_ok _ app _ hrt hvalid
  simp only [List.map_map, Function.comp_def, List.map_id'] at hframes
  have hprogram : (acquired.map
      (fun i => (⟨i, ⟨0, physicalDevice.graphicsQueueFamilyIndex, i, true⟩, ⟨i, true⟩⟩ : Frame))).flatMap
        (frameCalls app.presentFinished app.rtSemaphore app.renderFinished
          ⟨0, physicalDevice.graphicsQueueFamilyIndex, physicalDevice.swapchainImages + 1, true⟩) =
      acquired.flatMap (fun i =>
        [Op.acquireNextImage app.presentFinished none i,
         Op.fenceWait ⟨i, true⟩,
         Op.fenceReset ⟨i, true⟩,
         Op.mapUniformBuffer,
         Op.submit ⟨0, physicalDevice.graphicsQueueFamilyIndex,
             physicalDevice.swapchainImages + 1, true⟩
           VK_PIPELINE_STAGE_COLOR_ATTACHMENT_OUTPUT_BIT
           app.presentFinished app.rtSemaphore none,
         Op.submit ⟨0, physicalDevice.graphicsQueueFamilyIndex, i, true⟩
           VK_PIPELINE_STAGE_COLOR_ATTACHMENT_OUTPUT_BIT
           app.rtSemaphore app.renderFinished (some ⟨i, true⟩),
         Op.present i app.renderFinished,
         Op.waitIdle]) := by
    rw [List.flatMap_map]
    rfl
  refine ⟨_, _, hframes, hrt, hsignaled, hstart, hindex, ?_, ?_, ?_⟩
  · simp only [hcalls, List.nil_append]
    exact hprogram
  · intro schedule
    rw [hstart]
    simp only [hcalls, List.nil_append]
    exact run_disciplined _ _ _ _ schedule _ _ (reachable_start _ _ _ _ _ hdistinct)
  · rw [hstart]
    simp only [hcalls, List.nil_append]
    have hlazy := run_lazySchedule app.presentFinished app.rtSemaphore app.renderFinished _ _
      hdistinct
    simpa using hlazy

/-- C4 on the application constructed on the sample device, for the acquired indices
0, 1, 0. -/
theorem fence_discipline_witness :
    ∃ after : SobelApp,
      frames sampleApp [0, 1, 0] = .ok after ∧
      (∀ schedule : List Event,
        (run (Gpu.start sampleApp.waitFences) after.calls schedule).disciplined = true) ∧
      run (Gpu.start sampleApp.waitFences) after.calls (lazySchedule 3) = .running ⟨[], []⟩ [] := by
  obtain ⟨after, rt, hframes, -, -, -, -, -, hall, hlazy⟩ :=
    fence_discipline false (sampleDevice true false .getQueueThrows 2) sampleApp rfl rfl
      [0, 1, 0] (by decide)
  exact ⟨after, hframes, hall, hlazy⟩

/-! ## The debug report callback -/

theorem isPrefixOf_iff_append (needle haystack : List Char) :
    needle.isPrefixOf haystack = true ↔ ∃ after, haystack = needle ++ after := by
  induction needle generalizing haystack with
  | nil => simp [List.isPrefixOf]
  | cons c needle ih =>
    cases haystack with
    | nil => simp [List.isPrefixOf]
    | cons d haystack =>
      simp only [List.isPrefixOf, Bool.and_eq_true, beq_iff_eq, ih, List.cons_append,
        List.cons.injEq]
      constructor
      · rintro ⟨rfl, after, rfl⟩
        exact ⟨after, rfl, rfl⟩
      · rintro ⟨after, rfl, rfl⟩
        exact ⟨rfl, after, rfl⟩

/-- The function `strstr` finds an occurrence exactly when there is one. -/
theorem strstr_isSome_iff (haystack needle : List Char) :
    (strstr haystack needle).isSome = true ↔
      ∃ before after, haystack = before ++ needle ++ after := by
  induction haystack with
  | nil =>
    cases needle with
    | nil => simp [strstr]
    | cons c needle => simp [strstr]
  | cons c haystack ih =>
    unfold strstr
    by_cases hp : needle.isPrefixOf (c :: haystack) = true
    · simp only [hp, if_true, Option.isSome_some, true_iff]
      obtain ⟨after, hafter⟩ := (isPrefixOf_iff_append _ _).1 hp
      exact ⟨[], after, by simpa using hafter⟩
    · simp only [hp, Bool.false_eq_true, if_false, Option.isSome_map', ih]
      constructor
      · rintro ⟨before, after, rfl⟩
        exact ⟨c :: before, after, by simp⟩
      · rintro ⟨before, after, hsplit⟩
        cases before with
        | nil =>
          exact absurd ((isPrefixOf_iff_append _ _).2 ⟨after, by simpa using hsplit⟩) hp
        | cons d before =>
          simp only [List.cons_append, List.cons.injEq] at hsplit
          exact ⟨before, after, hsplit.2⟩

/-- An occurrence in the characters of a string is an occurrence in the string. -/
theorem occurs_iff (message needle : String) :
    (∃ before after : List Char, message.toList = before ++ needle.toList ++ after) ↔
      ∃ before after : String, message = before ++ needle ++ after := by
  constructor
  · rintro ⟨before, after, h⟩
    refine ⟨⟨before⟩, ⟨after⟩, ?_⟩
    apply String.ext
    simpa [String.toList] using h
  · rintro ⟨before, after, rfl⟩
    exact ⟨before.toList, after.toList, by simp [String.toList]⟩


/-- C11: for every flags value, layer prefix and message, `reportCallback` returns
`VK_FALSE`; it writes nothing when the message contains the substring "Extension";
otherwise it writes exactly the one text "[layerPrefix] message\n", to the error stream when
the error bit is set in the flags and to standard output in every other case, and leaves
the other stream as it was. -/
theorem reportCallback_spec (flags : VkFlags) (objectType object location : Nat)
    (messageCode : Int) (pLayerPrefix pMessage : String) (streams : Streams) :
    (reportCallback flags objectType object location messageCode pLayerPrefix pMessage
      streams).1 = VK_FALSE ∧
    ((∃ before after : String, pMessage = before ++ "Extension" ++ after) →
      (reportCallback flags objectType object location messageCode pLayerPrefix pMessage
        streams).2 = streams) ∧
    ((¬ ∃ before after : String, pMessage = before ++ "Extension" ++ after) →
      hasFlag flags VK_DEBUG_REPORT_ERROR_BIT_EXT = true →
      (reportCallback flags objectType object location messageCode pLayerPrefix pMessage
        streams).2 =
        ⟨streams.cout, streams.cerr ++ ["[" ++ pLayerPrefix ++ "] " ++ pMessage ++ "\n"]⟩) ∧
    ((¬ ∃ before after : String, pMessage = before ++ "Extension" ++ after) →
      hasFlag flags VK_DEBUG_REPORT_ERROR_BIT_EXT = false →
      (reportCallback flags objectType object location messageCode pLayerPrefix pMessage
        streams).2 =
        ⟨streams.cout ++ ["[" ++ pLayerPrefix ++ "] " ++ pMessage ++ "\n"], streams.cerr⟩) := by
  have hfound : (strstr pMessage.toList "Extension".toList).isSome = true ↔
      ∃ before after : String, pMessage = before ++ "Extension" ++ after := by
    rw [strstr_isSome_iff, occurs_iff]
  refine ⟨?_, ?_, ?_, ?_⟩
  · unfold reportCallback
    split_ifs <;> rfl
  · intro hocc
    unfold reportCallback
    rw [if_pos (hfound.2 hocc)]
  · intro hocc herror
    unfold reportCallback
    rw [if_neg (fun h => hocc (hfound.1 h))]
    simp only [herror, if_true]
  · intro hocc herror
    unfold reportCallback
    rw [if_neg (fun h => hocc (hfound.1 h))]
    simp only [herror, Bool.false_eq_true, if_false]

/-- C11 at three calls: an error message goes to the error stream, a warning to standard
output, and a message that mentions "Extension" is dropped. -/
theorem reportCallback_spec_witness :
    (reportCallback 8 0 0 0 0 "DS" "bad thing" ⟨[], []⟩).2 = ⟨[], ["[DS] bad thing\n"]⟩ ∧
    (reportCallback 2 0 0 0 0 "DS" "slow path" ⟨[], []⟩).2 = ⟨["[DS] slow path\n"], []⟩ ∧
    (reportCallback 8 0 0 0 0 "Loader" "Device Extension VK_x" ⟨[], []⟩).2 = ⟨[], []⟩ :=
  ⟨(reportCallback_spec 8 0 0 0 0 "DS" "bad thing" ⟨[], []⟩).2.2.1
      (by rw [← occurs_iff, ← strstr_isSome_iff]; decide) (by decide),
   (reportCallback_spec 2 0 0 0 0 "DS" "slow path" ⟨[], []⟩).2.2.2
      (by rw [← occurs_iff, ← strstr_isSome_iff]; decide) (by decide),
   (reportCallback_spec 8 0 0 0 0 "Loader" "Device Extension VK_x" ⟨[], []⟩).2.1
      ⟨"Device ", " VK_x", by decide⟩⟩

end Sobel
